import Mathlib

/-
Verification of the map-generation / building-placement / movement core of
the PokemonGenerator repository (src/main.py), as a shallow embedding.

Modelling conventions:
 * Python's global `random` module is modelled by an explicit pseudo-random
   state `PyRand`: an abstract deterministic stream of naturals plus a read
   cursor.  Every stdlib draw (`randint`, `random`, `choice`, `shuffle`)
   consumes positions of the stream exactly in the order the Python code
   draws, and the state is threaded explicitly through every function that
   draws.  `random.seed(s)` replaces the state by a stream that is a fixed
   function of `s` alone (`seedState`).  `np.random.seed` is also called by
   the source, but `np.random` is never drawn from afterwards, so it has no
   observable effect and is not modelled.
 * Machine integers are `Nat`/`Int` (Python ints are unbounded, so no
   wrap-around modelling is needed); the float probabilities that the code
   only ever compares (`random.random() < p`) are modelled as rationals.
 * numpy 2-D arrays are total functions `Nat -> Nat -> _` carried together
   with their `rows`/`cols` shape; in-place writes become pointwise
   functional updates.
 * `generate_layered_map` returning `(None, None)` on a degenerate world is
   modelled as an `Option` result.
-/

namespace PokeGen

/-- Model of the state of Python's global `random` module: an abstract
deterministic stream of naturals together with a cursor.  Each draw reads
one stream position and advances the cursor. -/
structure PyRand where
  stream : Nat → Nat
  pos : Nat

/-- Read one raw value from the pseudo-random stream. -/
def PyRand.next (g : PyRand) : Nat × PyRand :=
  (g.stream g.pos, ⟨g.stream, g.pos + 1⟩)

/-- A fixed 64-bit linear congruential step, standing in for the Mersenne
twister's seed expansion.  Only the fact that the stream is a deterministic
function of the seed matters for the theorems below. -/
def lcg (x : Nat) : Nat :=
  (6364136223846793005 * x + 1442695040888963407) % (2 ^ 64)

/-- Model of `random.seed(s)`: the resulting stream is a function of the
seed alone, independent of the prior state. -/
def seedState (s : Nat) : PyRand :=
  ⟨fun n => Nat.rec (lcg s) (fun _ acc => lcg acc) n, 0⟩

/-- Model of `random.randint(a, b)` (inclusive bounds): one draw, mapped
into the interval `[a, b]`. -/
def pyRandint (a b : Nat) (g : PyRand) : Nat × PyRand :=
  let (n, g1) := g.next
  (a + n % (b + 1 - a), g1)

/-- Model of `random.random()`: one draw, mapped to a rational in `[0, 1)`
with 53 bits of resolution (the code only ever compares the result against
a probability threshold). -/
def pyRandom (g : PyRand) : ℚ × PyRand :=
  let (n, g1) := g.next
  (mkRat (n % 2 ^ 53 : Nat) (2 ^ 53), g1)

/-- Model of `random.choice(l)`: one draw, used as an index into `l`.  The
default `d` is only reached when `l` is empty, where CPython would raise
`IndexError`; every call site below is reached with a non-empty list or is
guarded by a non-emptiness hypothesis in the theorems. -/
def pyChoice (l : List α) (d : α) (g : PyRand) : α × PyRand :=
  let (n, g1) := g.next
  (l.getD (n % l.length) d, g1)

/-- Swap the elements at positions `i` and `j` of a list (no-op when either
index is out of range). -/
def swapAt (l : List α) (i j : Nat) : List α :=
  match l.get? i, l.get? j with
  | some a, some b => (l.set i b).set j a
  | _, _ => l

/-- Loop of `random.shuffle`: Fisher-Yates, `for i in reversed(range(1,
len(l))): j = randbelow(i+1); swap l[i] l[j]`.  The argument is the current
value of `i`. -/
def pyShuffleAux : Nat → List α → PyRand → List α × PyRand
  | 0, l, g => (l, g)
  | Nat.succ k, l, g =>
    let (n, g1) := g.next
    let j := n % (k + 2)
    pyShuffleAux k (swapAt l (k + 1) j) g1

/-- Model of `random.shuffle(l)`. -/
def pyShuffle (l : List α) (g : PyRand) : List α × PyRand :=
  pyShuffleAux (l.length - 1) l g

/-- The BiomeType class of main.py (the decorative tags `tallgrass` and
`flowers` only ever occur as tile-map strings, never as zone values). -/
inductive BiomeType | lake | forest | path
deriving DecidableEq

/-- Coarse zone grid: one biome per super-cell. -/
def SuperGrid : Type := Nat → Nat → BiomeType

/-- Pointwise write into a super grid (`current_super_grid[r, c] = zt`). -/
def setSG (sg : SuperGrid) (r c : Nat) (v : BiomeType) : SuperGrid :=
  fun r' c' => if r' = r ∧ c' = c then v else sg r' c'

/-- Walkability grid: 0 impassable terrain, 1 walkable, 2 structure. -/
def CoordGrid : Type := Nat → Nat → Nat

/-- Tile-type grid; `none` models a never-written `np.empty(object)` slot. -/
def TileMap : Type := Nat → Nat → Option String

/-- Pointwise write into a walkability grid. -/
def setG (gr : CoordGrid) (r c v : Nat) : CoordGrid :=
  fun r' c' => if r' = r ∧ c' = c then v else gr r' c'

/-- Pointwise write into a tile-type grid. -/
def setT (t : TileMap) (r c : Nat) (v : Option String) : TileMap :=
  fun r' c' => if r' = r ∧ c' = c then v else t r' c'

/-- In-bounds neighbour list built exactly in the source's order:
up, down, left, right, each guarded by the corresponding bound check. -/
def neighborsOf (sr sc r c : Nat) : List (Nat × Nat) :=
  (if 0 < r then [(r - 1, c)] else []) ++
  (if r < sr - 1 then [(r + 1, c)] else []) ++
  (if 0 < c then [(r, c - 1)] else []) ++
  (if c < sc - 1 then [(r, c + 1)] else [])

/-- Inner `while q and count < blob_size` loop of the blob growth in
`generate_layered_map` (lines 94-113 of main.py).  `fuel` is a structural
bound on the number of iterations: every iteration pops exactly one queue
element, the queue receives at most `1` initial element plus at most `4`
elements per painted cell, and at most `blob` cells are ever painted
(`count` strictly increases on each paint and the loop requires
`count < blob`), so `4 * blob + 2` iterations always suffice and the
`fuel = 0` branch is unreachable from `growZone`. -/
def blobLoop (sr sc : Nat) (zt : BiomeType) (blob : Nat) :
    Nat → List (Nat × Nat) → List (Nat × Nat) → Nat → SuperGrid → PyRand →
    SuperGrid × PyRand
  | 0, _, _, _, sg, g => (sg, g)
  | fuel + 1, q, visited, count, sg, g =>
    if count < blob then
      match q with
      | [] => (sg, g)
      | (r, c) :: rest =>
        if (r, c) ∈ visited then
          blobLoop sr sc zt blob fuel rest visited count sg g
        else
          let visited' := (r, c) :: visited
          if r < sr ∧ c < sc then
            let sg' := setSG sg r c zt
            let (x, g1) := pyRandom g
            if x < mkRat 4 5 then
              let (nbrs, g2) := pyShuffle (neighborsOf sr sc r c) g1
              blobLoop sr sc zt blob fuel (rest ++ nbrs) visited' (count + 1) sg' g2
            else
              blobLoop sr sc zt blob fuel rest visited' (count + 1) sg' g1
          else
            blobLoop sr sc zt blob fuel rest visited' count sg g
    else (sg, g)

/-- One zone of the generation attempt (lines 83-113 of main.py): draw the
origin, the type, the blob size, then grow the blob. -/
def growZone (sr sc : Nat) (sg : SuperGrid) (g : PyRand) : SuperGrid × PyRand :=
  let (start_r, g1) := pyRandint 0 (sr - 1) g
  let (start_c, g2) := pyRandint 0 (sc - 1) g1
  let (zt, g3) := pyChoice [BiomeType.lake, BiomeType.forest] BiomeType.lake g2
  let (blob, g4) := pyRandint 10 35 g3
  blobLoop sr sc zt blob (4 * blob + 2) [(start_r, start_c)] [] 0 sg g4

/-- The `for _ in range(num_zones_to_create)` loop. -/
def zonesLoop (sr sc : Nat) : Nat → SuperGrid → PyRand → SuperGrid × PyRand
  | 0, sg, g => (sg, g)
  | n + 1, sg, g =>
    let (sg1, g1) := growZone sr sc sg g
    zonesLoop sr sc n sg1 g1

/-- One full generation attempt (the body of the `while attempts <
max_attempts` loop): start from an all-Path grid, draw the zone count in
`[5, 12]`, grow that many zones. -/
def generateAttempt (sr sc : Nat) (g : PyRand) : SuperGrid × PyRand :=
  let (nz, g1) := pyRandint 5 12 g
  zonesLoop sr sc nz (fun _ _ => BiomeType.path) g1

/-- Count of Path super-cells (`np.sum(current_super_grid == PATH)`). -/
def countPath (sr sc : Nat) (sg : SuperGrid) : Nat :=
  ((List.range sr).map
    (fun r => ((List.range sc).filter
      (fun c => decide (sg r c = BiomeType.path))).length)).sum

/-- The retry loop of `generate_layered_map` (lines 75-122).  The first
argument is the number of attempts still allowed, the second the current
value of the `attempts` counter, the third the current value of the
`super_grid` variable (initially all Path).  Returns the final
`super_grid`, the final `attempts` counter (the code prints its soft
warning exactly when this equals `max_attempts`), and the threaded
pseudo-random state. -/
def regionLoop (sr sc : Nat) (maxPath : ℚ) :
    Nat → Nat → SuperGrid → PyRand → SuperGrid × Nat × PyRand
  | 0, attempts, sg, g => (sg, attempts, g)
  | k + 1, attempts, sg, g =>
    let t := generateAttempt sr sc g
    if mkRat (countPath sr sc t.1) (sr * sc) ≤ maxPath then
      (t.1, attempts, t.2)
    else
      regionLoop sr sc maxPath k (attempts + 1) sg t.2

/-- The region-generation phase of `generate_layered_map`: the initial
`super_grid = np.full(..., PATH)` plus the bounded retry loop. -/
def regionGenerate (sr sc : Nat) (maxPath : ℚ) (maxAttempts : Nat)
    (g : PyRand) : SuperGrid × Nat × PyRand :=
  regionLoop sr sc maxPath maxAttempts 0 (fun _ _ => BiomeType.path) g

/-- Modelled from the spec (for comparison with the code, claim about the
best-effort fallback): thread the pseudo-random state through `n` full
generation attempts. -/
def attemptsChain (sr sc : Nat) : Nat → PyRand → PyRand
  | 0, g => g
  | n + 1, g => attemptsChain sr sc n (generateAttempt sr sc g).2

/-- Modelled from the spec: the zone grid produced by the last of
`n` generation attempts (the grid the spec says an exhausted retry budget
should fall back to). -/
def lastAttemptGrid (sr sc n : Nat) (g : PyRand) : SuperGrid :=
  (generateAttempt sr sc (attemptsChain sr sc (n - 1) g)).1

/-- The `map_settings` configuration block consumed by
`generate_layered_map`. -/
structure MapSettings where
  super_grid_region_size : Nat
  max_path_percentage : ℚ
  max_map_generation_attempts : Nat
  tallgrass_probability : ℚ
  flowers_probability : ℚ

/-- One tile write of the rasterization pass (the innermost branch of
lines 144-154 of main.py). -/
def rasterizeCell (zt : BiomeType) (r c : Nat) (gm : CoordGrid × TileMap) :
    CoordGrid × TileMap :=
  match zt with
  | BiomeType.lake => (setG gm.1 r c 0, setT gm.2 r c (some "water"))
  | BiomeType.forest => (setG gm.1 r c 0, setT gm.2 r c (some "forest_tree"))
  | BiomeType.path => (setG gm.1 r c 1, setT gm.2 r c (some "grassland"))

/-- The two inner `for r / for c` loops of the rasterization pass: writes
every tile of the `RS × RS` block whose top-left tile is
`(r0, c0) = (super_r * RS, super_c * RS)`. -/
def rasterRegion (RS : Nat) (zt : BiomeType) (r0 c0 : Nat)
    (gm : CoordGrid × TileMap) : CoordGrid × TileMap :=
  (List.range RS).foldl
    (fun gm1 dr =>
      (List.range RS).foldl
        (fun gm2 dc => rasterizeCell zt (r0 + dr) (c0 + dc) gm2) gm1)
    gm

/-- The rasterization pass of `generate_layered_map` (lines 131-154):
starting from `np.zeros` / `np.empty`, expand every super-cell into its
`RS × RS` tile block. -/
def rasterize (RS sr sc : Nat) (sg : SuperGrid) : CoordGrid × TileMap :=
  (List.range sr).foldl
    (fun gm1 super_r =>
      (List.range sc).foldl
        (fun gm2 super_c =>
          rasterRegion RS (sg super_r super_c) (super_r * RS) (super_c * RS) gm2)
        gm1)
    (fun _ _ => 0, fun _ _ => none)

/-- One tile of the decoration pass (the body of lines 157-163): only a
tile whose walkability is 1 rolls; the flowers roll happens only in the
`elif` branch, i.e. when the tallgrass roll missed. -/
def decorateCell (tgp flp : ℚ) (grid : CoordGrid) (r c : Nat)
    (st : TileMap × PyRand) : TileMap × PyRand :=
  if grid r c = 1 then
    let t := pyRandom st.2
    if t.1 < tgp then (setT st.1 r c (some "tallgrass"), t.2)
    else
      let u := pyRandom t.2
      if u.1 < flp then (setT st.1 r c (some "flowers"), u.2) else (st.1, u.2)
  else st

/-- The decoration pass of `generate_layered_map` (lines 157-163): the
`for r in range(rows): for c in range(cols)` double loop over
`decorateCell`.  The walkability grid is only read, never written, by this
pass, faithfully to the source loop body. -/
def decorate (rows cols : Nat) (tgp flp : ℚ) (grid : CoordGrid)
    (tm : TileMap) (g : PyRand) : TileMap × PyRand :=
  (List.range rows).foldl
    (fun st1 r =>
      (List.range cols).foldl (fun st2 c => decorateCell tgp flp grid r c st2) st1)
    (tm, g)

/-- The non-degenerate body of `generate_layered_map` after the dimension
check: region generation, rasterization, decoration. -/
def generateBody (rows cols : Nat) (ms : MapSettings) (g : PyRand) :
    (CoordGrid × TileMap) × PyRand :=
  let RS := ms.super_grid_region_size
  let sr := rows / RS
  let sc := cols / RS
  let (sg, _, g1) :=
    regionGenerate sr sc ms.max_path_percentage ms.max_map_generation_attempts g
  let (grid, tm) := rasterize RS sr sc sg
  let (tm1, g2) :=
    decorate rows cols ms.tallgrass_probability ms.flowers_probability grid tm g1
  ((grid, tm1), g2)

/-- Model of `if seed is not None: random.seed(seed)` at the top of
`generate_layered_map`. -/
def seedOpt : Option Nat → PyRand → PyRand
  | some s, _ => seedState s
  | none, g => g

/-- The full `generate_layered_map(rows, cols, map_settings, seed)`
(lines 52-166 of main.py).  The Python `return None, None` on a degenerate
super grid is modelled as `none`; otherwise the walkability grid, the
tile-type grid and the final pseudo-random state are returned. -/
def generate_layered_map (rows cols : Nat) (ms : MapSettings)
    (seed : Option Nat) (g : PyRand) : Option ((CoordGrid × TileMap) × PyRand) :=
  let g1 := seedOpt seed g
  if rows / ms.super_grid_region_size = 0 ∨ cols / ms.super_grid_region_size = 0 then
    none
  else
    some (generateBody rows cols ms g1)

/-- The `interior_map_settings` configuration block. -/
structure InteriorSettings where
  interior_rows : Nat
  interior_cols : Nat
  floor_tile_type : String
  wall_tile_type : String
  door_tile_type : String

/-- The `generate_interior_map` function (lines 169-196 of main.py).  The
fill / perimeter-wall double loop assigns each cell exactly once from its
own coordinates, so it is embedded as the equivalent per-cell expression;
the door write follows, exactly as in the source. -/
def generate_interior_map (rows cols : Nat) (is0 : InteriorSettings) :
    CoordGrid × TileMap × (Nat × Nat) :=
  let baseGrid : CoordGrid := fun r c =>
    if r < rows ∧ c < cols ∧ (r = 0 ∨ r = rows - 1 ∨ c = 0 ∨ c = cols - 1)
    then 0 else 1
  let baseTiles : TileMap := fun r c =>
    if r < rows ∧ c < cols ∧ (r = 0 ∨ r = rows - 1 ∨ c = 0 ∨ c = cols - 1)
    then some is0.wall_tile_type else some is0.floor_tile_type
  let door_col := cols / 2
  if 0 < rows ∧ door_col < cols then
    (setG baseGrid (rows - 1) door_col 1,
     setT baseTiles (rows - 1) door_col (some is0.door_tile_type),
     (rows - 1, door_col))
  else
    (baseGrid, baseTiles, (rows - 1, door_col))

/-- One entry of the `building_definitions` configuration table. -/
structure BuildingInfo where
  width_tiles : Nat
  height_tiles : Nat
deriving DecidableEq

/-- A placed-building record as appended by `place_buildings_on_map`
(lines 258-265 of main.py); `entrance_x, entrance_y` are the two
components of `entrance_tile_world_coords` (column first, row second in
the source tuple). -/
structure Building where
  btype : String
  grid_x : Nat
  grid_y : Nat
  width_tiles : Nat
  height_tiles : Nat
  entrance_x : Nat
  entrance_y : Nat
deriving DecidableEq

/-- Tile `(r, c)` lies under the footprint of building `b`. -/
def inFootprint (b : Building) (r c : Nat) : Prop :=
  b.grid_y ≤ r ∧ r < b.grid_y + b.height_tiles ∧
  b.grid_x ≤ c ∧ c < b.grid_x + b.width_tiles

instance (b : Building) (r c : Nat) : Decidable (inFootprint b r c) := by
  unfold inFootprint; infer_instance

/-- The row-major collection of candidate top-left tiles (lines 204-208):
every tile whose current walkability is 1. -/
def collectCandidates (rows cols : Nat) (grid : CoordGrid) : List (Nat × Nat) :=
  (List.range rows).flatMap
    (fun r => ((List.range cols).filter (fun c => decide (grid r c = 1))).map
      (fun c => (r, c)))

/-- The `is_clear` footprint scan (lines 228-240): every footprint tile is
in bounds and currently walkable. -/
def footprintClear (rows cols : Nat) (grid : CoordGrid) (r0 c0 h w : Nat) : Bool :=
  (List.range h).all (fun dr =>
    (List.range w).all (fun dc =>
      decide (r0 + dr < rows) && decide (c0 + dc < cols) &&
      decide (grid (r0 + dr) (c0 + dc) = 1)))

/-- The footprint-marking double loop (lines 252-254): each tile of the
block is assigned the constant 2 exactly once, embedded as the equivalent
per-cell expression. -/
def markFootprint (grid : CoordGrid) (r0 c0 h w : Nat) : CoordGrid :=
  fun r c =>
    if r0 ≤ r ∧ r < r0 + h ∧ c0 ≤ c ∧ c < c0 + w then 2 else grid r c

/-- The candidate loop of `place_buildings_on_map` (lines 214-265).  One
`random.choice` over the building names is drawn per candidate, before the
fit check, exactly as in the source; `building_definitions` is carried as
an association list (Python dict, unique keys, insertion order), so the
drawn name's lookup is the drawn pair itself. -/
def placeLoop (rows cols num : Nat) (bdefs : List (String × BuildingInfo)) :
    List (Nat × Nat) → CoordGrid → List Building → PyRand →
    CoordGrid × List Building × PyRand
  | [], grid, placed, g => (grid, placed, g)
  | (r_start, c_start) :: rest, grid, placed, g =>
    if num ≤ placed.length then (grid, placed, g)
    else
      let t := pyChoice bdefs ("", ⟨0, 0⟩) g
      let w := t.1.2.width_tiles
      let h := t.1.2.height_tiles
      if rows < r_start + h ∨ cols < c_start + w then
        placeLoop rows cols num bdefs rest grid placed t.2
      else
        let is_clear := footprintClear rows cols grid r_start c_start h w
        let ex := c_start + w / 2
        let ey := r_start + h
        let entOk : Bool :=
          decide (ey < rows) && decide (ex < cols) && decide (grid ey ex = 1)
        if is_clear && entOk then
          let grid1 := setG (markFootprint grid r_start c_start h w) ey ex 1
          let b : Building := ⟨t.1.1, c_start, r_start, w, h, ex, ey⟩
          placeLoop rows cols num bdefs rest grid1 (placed ++ [b]) t.2
        else
          placeLoop rows cols num bdefs rest grid placed t.2

/-- The full `place_buildings_on_map(coordinate_grid, num_buildings,
building_definitions)` (lines 199-267): collect candidates, shuffle them,
then run the placement loop.  `rows, cols` carry `coordinate_grid.shape`;
the mutated grid, the placed-building list and the threaded pseudo-random
state are returned. -/
def place_buildings_on_map (rows cols : Nat) (grid : CoordGrid) (num : Nat)
    (bdefs : List (String × BuildingInfo)) (g : PyRand) :
    CoordGrid × List Building × PyRand :=
  let cands := collectCandidates rows cols grid
  let (cands1, g1) := pyShuffle cands g
  placeLoop rows cols num bdefs cands1 grid [] g1

/-- The `game_settings` fields consumed by the Player class. -/
structure GameSettings where
  player_move_cooldown_initial : Nat
  player_move_cooldown_subsequent : Nat
  tile_size : Nat
  screen_width : Nat
  screen_height : Nat
  num_buildings : Nat

/-- The movement-relevant state of the Player sprite (main.py lines
271-298).  Pixel-rect and animation-frame bookkeeping are rendering-owned
(spec section 6) and carry no information beyond `grid_x, grid_y,
direction`, so they are not modelled. -/
structure PlayerState where
  grid_x : Int
  grid_y : Int
  direction : String
  total_rows : Nat
  total_cols : Nat
  move_cooldown_initial : Nat
  move_cooldown_subsequent : Nat
  move_timer : Nat
  moving_direction : Option (Int × Int)
  interaction_cooldown : Nat
  max_interaction_cooldown : Nat
deriving DecidableEq

/-- `Player.try_move` (lines 343-362): bounds check, walkability check,
silent failure otherwise.  The walkability grid is only read; the Boolean
is the source's return value. -/
def PlayerState.try_move (p : PlayerState) (dx dy : Int) (grid : CoordGrid)
    (map_rows map_cols : Nat) (is_continuous : Bool) : PlayerState × Bool :=
  if is_continuous ∧ 0 < p.move_timer then (p, false)
  else
    let nx := p.grid_x + dx
    let ny := p.grid_y + dy
    if ¬(0 ≤ nx ∧ nx < (map_cols : Int) ∧ 0 ≤ ny ∧ ny < (map_rows : Int)) then
      (p, false)
    else if grid ny.toNat nx.toNat ≠ 1 then (p, false)
    else
      ({ p with
          grid_x := nx, grid_y := ny,
          move_timer :=
            if is_continuous then p.move_cooldown_subsequent
            else p.move_cooldown_initial },
       true)

/-- The `direction_map` lookup of `Player.set_moving_direction`. -/
def directionName (dx dy : Int) : String :=
  if (dx, dy) = ((0 : Int), (-1 : Int)) then "up"
  else if (dx, dy) = ((0 : Int), (1 : Int)) then "down"
  else if (dx, dy) = ((-1 : Int), (0 : Int)) then "left"
  else if (dx, dy) = ((1 : Int), (0 : Int)) then "right"
  else "down"

/-- `Player.set_moving_direction` (lines 323-335). -/
def PlayerState.set_moving_direction (p : PlayerState) (dx dy : Int) :
    PlayerState :=
  if p.moving_direction ≠ some (dx, dy) then
    { p with
        moving_direction := some (dx, dy),
        direction := directionName dx dy,
        move_timer := p.move_cooldown_initial }
  else p

/-- `Player.clear_moving_direction` (lines 338-340). -/
def PlayerState.clear_moving_direction (p : PlayerState) : PlayerState :=
  { p with moving_direction := none, move_timer := 0 }

/-- The timer bookkeeping at the top of `Player.update` (lines 301-304):
decrement each positive timer. -/
def PlayerState.tickTimers (p : PlayerState) : PlayerState :=
  let p1 := if 0 < p.move_timer then { p with move_timer := p.move_timer - 1 } else p
  if 0 < p1.interaction_cooldown then
    { p1 with interaction_cooldown := p1.interaction_cooldown - 1 }
  else p1

/-- The movement attempt of `Player.update` (lines 306-309): if a
direction is held and the move timer has reached zero, attempt a
continuous step. -/
def PlayerState.stepIfDue (p : PlayerState) (grid : CoordGrid) : PlayerState :=
  match p.moving_direction with
  | some (dx, dy) =>
    if p.move_timer = 0 then
      (p.try_move dx dy grid p.total_rows p.total_cols true).1
    else p
  | none => p

/-- `Player.update` (lines 300-314), restricted to its state-machine
content: decrement the timers, then, if a direction is held and the move
timer reached zero, attempt a continuous step (animation-frame updates are
rendering-owned and not modelled). -/
def PlayerState.update (p : PlayerState) (grid : CoordGrid) : PlayerState :=
  (p.tickTimers).stepIfDue grid

/-- The movement-relevant input alphabet of the main event loop
(lines 635-656): an arrow-key press (handled at lines 646-648 by
`set_moving_direction` followed by an immediate non-continuous
`try_move`), an arrow-key release, and a frame tick (`player.update`). -/
inductive GameInput where
  | keydown (dx dy : Int)
  | keyup
  | frame

/-- One step of the main loop's movement handling against a fixed active
grid. -/
def stepInput (grid : CoordGrid) (p : PlayerState) : GameInput → PlayerState
  | GameInput.keydown dx dy =>
    let p1 := p.set_moving_direction dx dy
    (p1.try_move dx dy grid p1.total_rows p1.total_cols false).1
  | GameInput.keyup => p.clear_moving_direction
  | GameInput.frame => p.update grid

/-- A sequence of movement inputs fed to the main loop. -/
def runInputs (grid : CoordGrid) (p : PlayerState) : List GameInput → PlayerState
  | [] => p
  | i :: rest => runInputs grid (stepInput grid p i) rest

/-- A sequence of frame ticks (used to talk about cooldown expiry). -/
def runFrames (grid : CoordGrid) (p : PlayerState) : Nat → PlayerState
  | 0 => p
  | n + 1 => runFrames grid (p.update grid) n

/-- The `current_map_data` dictionary (main.py lines 418-426 and 592-599):
the active grid/tile pair with its shape, scene kind, optional indoor exit
point, and the viewport constants.  `grid_rows, grid_cols` carry
`grid.shape`. -/
structure MapData where
  grid_rows : Nat
  grid_cols : Nat
  grid : CoordGrid
  tiles : TileMap
  scene : String
  exit_point : Option (Nat × Nat)
  tile_size : Nat
  screen_width : Nat
  screen_height : Nat

/-- The `outdoor_map_data` saved-state dictionary (lines 408-410):
the outdoor map details, the player's pre-entry outdoor position
(`grid_x` first, `grid_y` second, as passed at line 624), and the
building list. -/
structure OutdoorSave where
  map_details : MapData
  player_last_outdoor_pos : Int × Int
  buildings : List Building

/-- The module-level mutable game state of main.py (lines 366-370).  The
camera is viewport math owned by the renderer (spec section 6) and carries
no state read back by the core, so it is not modelled. -/
structure GameState where
  player : PlayerState
  current_map_data : MapData
  outdoor_map_data : Option OutdoorSave
  placed_buildings_data : List Building

/-- `switch_to_indoor(outdoor_entrance_coords, interior_settings,
game_settings)` (lines 404-446): snapshot the outdoor state, generate the
interior, make it active, teleport the player just above the door, arm the
interaction cooldown. -/
def switch_to_indoor (st : GameState) (outdoor_entrance_coords : Int × Int)
    (is0 : InteriorSettings) (gs : GameSettings) : GameState :=
  let save : OutdoorSave :=
    ⟨st.current_map_data, outdoor_entrance_coords, st.placed_buildings_data⟩
  let (igrid, itiles, door) :=
    generate_interior_map is0.interior_rows is0.interior_cols is0
  let cmd : MapData :=
    ⟨is0.interior_rows, is0.interior_cols, igrid, itiles, "indoor", some door,
     gs.tile_size, gs.screen_width, gs.screen_height⟩
  let p :=
    { st.player with
        grid_x := (door.2 : Int),
        grid_y := (door.1 : Int) - 1,
        total_rows := cmd.grid_rows,
        total_cols := cmd.grid_cols,
        interaction_cooldown := st.player.max_interaction_cooldown }
  { st with
      player := p,
      current_map_data := cmd,
      outdoor_map_data := some save }

/-- `switch_to_outdoor()` (lines 373-401): restore the saved outdoor map
details, building list and player position, and arm the interaction
cooldown.  The source reads `outdoor_map_data` unconditionally (a missing
snapshot would be a Python `KeyError`); the `none` branch is unreachable in
the program flow and left as the identity. -/
def switch_to_outdoor (st : GameState) : GameState :=
  match st.outdoor_map_data with
  | none => st
  | some save =>
    let cmd := save.map_details
    let p :=
      { st.player with
          grid_x := save.player_last_outdoor_pos.1,
          grid_y := save.player_last_outdoor_pos.2,
          total_rows := cmd.grid_rows,
          total_cols := cmd.grid_cols,
          interaction_cooldown := st.player.max_interaction_cooldown }
    { st with
        player := p,
        current_map_data := cmd,
        placed_buildings_data := save.buildings }

/-- The player sits at a legal position: its cached map dimensions match
the active grid's, its coordinates are in bounds, and the tile under it is
not walkability 0. -/
def PlayerSafe (grid : CoordGrid) (rows cols : Nat) (p : PlayerState) : Prop :=
  p.total_rows = rows ∧ p.total_cols = cols ∧
  0 ≤ p.grid_x ∧ p.grid_x < (cols : Int) ∧
  0 ≤ p.grid_y ∧ p.grid_y < (rows : Int) ∧
  grid p.grid_y.toNat p.grid_x.toNat ≠ 0

/-- C5, witness state: a small concrete outdoor world. -/
def sampleOutdoorState : GameState :=
  { player := ⟨3, 4, "down", 10, 10, 5, 2, 0, none, 0, 20⟩,
    current_map_data :=
      ⟨10, 10, fun _ _ => 1, fun _ _ => some "grassland", "outdoor", none,
       32, 800, 600⟩,
    outdoor_map_data := none,
    placed_buildings_data := [⟨"hut", 1, 1, 1, 1, 1, 2⟩] }

/-- The walkability value a zone type rasterizes to (lines 146-153):
Lake and Forest tiles are impassable, Path tiles walkable. -/
def zoneWalk : BiomeType → Nat
  | BiomeType.path => 1
  | _ => 0

/-- The base tile type a zone type rasterizes to (lines 146-154). -/
def zoneTile : BiomeType → String
  | BiomeType.lake => "water"
  | BiomeType.forest => "forest_tree"
  | BiomeType.path => "grassland"

/-- Evolution relation of the decoration pass: each tile either keeps its
previous tag or, only if its walkability is 1, gets tagged tallgrass or
flowers. -/
def DecoStep (grid : CoordGrid) (st st' : TileMap × PyRand) : Prop :=
  ∀ r c, st'.1 r c = st.1 r c ∨
    (grid r c = 1 ∧
      (st'.1 r c = some "tallgrass" ∨ st'.1 r c = some "flowers"))

/-- Two buildings' footprints share no tile. -/
def FootprintsDisjoint (b b' : Building) : Prop :=
  ∀ r c, ¬(inFootprint b r c ∧ inFootprint b' r c)

/-- Invariant of the placement loop, relating the input grid `grid0`, the
current (mutated) grid and the accepted records: the list is within the
requested count; every record's footprint is in bounds with the entrance
at the source's coordinates; every footprint tile is currently 2;
footprints are pairwise disjoint; tiles that started at 0 are still 0 (so
no building was ever placed over natural impassable terrain); no footprint
covers a tile that started at 0; and every record's entrance tile is
currently walkable unless a later-accepted footprint covers it. -/
def PlaceInv (grid0 : CoordGrid) (rows cols num : Nat) (grid : CoordGrid)
    (placed : List Building) : Prop :=
  placed.length ≤ num ∧
  (∀ b ∈ placed,
    b.grid_y + b.height_tiles ≤ rows ∧ b.grid_x + b.width_tiles ≤ cols ∧
    b.entrance_x = b.grid_x + b.width_tiles / 2 ∧
    b.entrance_y = b.grid_y + b.height_tiles) ∧
  (∀ b ∈ placed, ∀ r c, inFootprint b r c → grid r c = 2) ∧
  List.Pairwise FootprintsDisjoint placed ∧
  (∀ r c, grid0 r c = 0 → grid r c = 0) ∧
  (∀ b ∈ placed, ∀ r c, inFootprint b r c → grid0 r c ≠ 0) ∧
  (∀ b ∈ placed, grid b.entrance_y b.entrance_x = 1 ∨
    ∃ b' ∈ placed, inFootprint b' b.entrance_y b.entrance_x)

/-
Lemmas and claim theorems.
-/

/-- If the retry loop reports an exhausted budget (its `attempts` counter
advanced through every allowed attempt), then it returns its `super_grid`
parameter untouched: a successful attempt would have returned a strictly
smaller counter. -/
theorem regionLoop_exhausted (sr sc : Nat) (mp : ℚ) :
    ∀ (k a : Nat) (sg : SuperGrid) (g : PyRand),
      (regionLoop sr sc mp k a sg g).2.1 = a + k →
      (regionLoop sr sc mp k a sg g).1 = sg := by
  intro k
  induction k with
  | zero => intro a sg g _; rfl
  | succ n ih =>
    intro a sg g h
    rw [regionLoop] at h ⊢
    by_cases hc :
        mkRat (countPath sr sc (generateAttempt sr sc g).1) (sr * sc) ≤ mp
    · rw [if_pos hc] at h
      have h' : a = a + (n + 1) := h
      omega
    · rw [if_neg hc] at h ⊢
      have := ih (a + 1) sg (generateAttempt sr sc g).2 (by omega)
      exact this

/-- C1, counterexample.  A region-size-1 world of a single super-cell with
a path-fraction ceiling of -1 (unsatisfiable) and an attempt budget of 1:
the budget is exhausted (final attempts counter equals `max_attempts`, the
code's warning condition), the attempt itself painted the only super-cell
Lake, yet the zone grid the generator hands on is the all-Path default,
not the last attempt's grid. -/
theorem c1_counterexample :
    (regionGenerate 1 1 (-1) 1 ⟨fun _ => 0, 0⟩).2.1 = 1 ∧
    (regionGenerate 1 1 (-1) 1 ⟨fun _ => 0, 0⟩).1 0 0 = BiomeType.path ∧
    lastAttemptGrid 1 1 1 ⟨fun _ => 0, 0⟩ 0 0 = BiomeType.lake ∧
    BiomeType.path ≠ BiomeType.lake :=
  ⟨by decide, by decide, by decide, by decide⟩

/-- C1 (amended): if no attempt within the `maxAttempts` budget meets the
path-fraction constraint (equivalently, the returned attempts counter — on
which the code's soft warning, not an error, is keyed — equals the
budget), the region generator still returns a zone grid, namely the
initial all-Path default grid; every attempt's output is discarded. -/
theorem c1_exhausted_budget_returns_default_grid (sr sc : Nat) (mp : ℚ)
    (ma : Nat) (g : PyRand)
    (h : (regionGenerate sr sc mp ma g).2.1 = ma) :
    (regionGenerate sr sc mp ma g).1 = fun _ _ => BiomeType.path :=
  regionLoop_exhausted sr sc mp ma 0 (fun _ _ => BiomeType.path) g
    (by simpa using h)

/-- C1, witness for the amended theorem at a concrete exhausted run. -/
theorem c1_exhausted_budget_returns_default_grid_witness :
    (regionGenerate 1 1 (-1) 1 ⟨fun _ => 1, 0⟩).2.1 = 1 ∧
    (regionGenerate 1 1 (-1) 1 ⟨fun _ => 1, 0⟩).1 = fun _ _ => BiomeType.path :=
  ⟨by decide,
   c1_exhausted_budget_returns_default_grid 1 1 (-1) 1 ⟨fun _ => 1, 0⟩ (by decide)⟩

/-- C8: for a fixed seed and fixed parameters, two runs of the generator
from arbitrary (and arbitrarily different) prior pseudo-random states
produce the same zone grid and the same walkability / tile-type grids:
`random.seed` makes the draw stream a function of the seed alone, and
every draw (zone count; per-zone origin row, origin column, type, blob
size; per-BFS-step coin flip and neighbour shuffle; decoration rolls) is
threaded deterministically from it. -/
theorem c8_seeded_generation_deterministic (rows cols : Nat)
    (ms : MapSettings) (s : Nat) (g1 g2 : PyRand) :
    regionGenerate (rows / ms.super_grid_region_size)
        (cols / ms.super_grid_region_size) ms.max_path_percentage
        ms.max_map_generation_attempts (seedOpt (some s) g1) =
      regionGenerate (rows / ms.super_grid_region_size)
        (cols / ms.super_grid_region_size) ms.max_path_percentage
        ms.max_map_generation_attempts (seedOpt (some s) g2) ∧
    generate_layered_map rows cols ms (some s) g1 =
      generate_layered_map rows cols ms (some s) g2 :=
  ⟨rfl, rfl⟩

/-- C9: when the world dimensions are too small for the region size
(either super-grid dimension is zero), `generate_layered_map` refuses to
build a world and surfaces the failure to its caller: it returns no grids
(the source's `return None, None`, modelled as `none`). -/
theorem c9_degenerate_world_returns_no_grids (rows cols : Nat)
    (ms : MapSettings) (seed : Option Nat) (g : PyRand)
    (h : rows / ms.super_grid_region_size = 0 ∨
         cols / ms.super_grid_region_size = 0) :
    generate_layered_map rows cols ms seed g = none := by
  rw [generate_layered_map, if_pos h]

/-- C9, witness: a 1 by 1 world with region size 2. -/
theorem c9_degenerate_world_returns_no_grids_witness :
    (1 / (⟨2, mkRat 7 20, 5, mkRat 1 10, mkRat 1 20⟩ : MapSettings).super_grid_region_size = 0 ∨
     1 / (⟨2, mkRat 7 20, 5, mkRat 1 10, mkRat 1 20⟩ : MapSettings).super_grid_region_size = 0) ∧
    generate_layered_map 1 1 ⟨2, mkRat 7 20, 5, mkRat 1 10, mkRat 1 20⟩ none
      ⟨fun _ => 0, 0⟩ = none :=
  ⟨by decide,
   c9_degenerate_world_returns_no_grids 1 1 _ none ⟨fun _ => 0, 0⟩ (by decide)⟩

/-- Exhaustive description of `try_move`: either it is the silent no-op
`(p, false)`, or the target tile is in bounds with walkability exactly 1
and the result is the committed step. -/
theorem try_move_spec (p : PlayerState) (dx dy : Int) (grid : CoordGrid)
    (mr mc : Nat) (cont : Bool) :
    p.try_move dx dy grid mr mc cont = (p, false) ∨
    (0 ≤ p.grid_x + dx ∧ p.grid_x + dx < (mc : Int) ∧
     0 ≤ p.grid_y + dy ∧ p.grid_y + dy < (mr : Int) ∧
     grid (p.grid_y + dy).toNat (p.grid_x + dx).toNat = 1 ∧
     p.try_move dx dy grid mr mc cont =
       ({ p with
            grid_x := p.grid_x + dx, grid_y := p.grid_y + dy,
            move_timer :=
              if cont then p.move_cooldown_subsequent
              else p.move_cooldown_initial },
        true)) := by
  unfold PlayerState.try_move
  by_cases h1 : cont ∧ 0 < p.move_timer
  · left; rw [if_pos h1]
  · rw [if_neg h1]
    by_cases h2 : 0 ≤ p.grid_x + dx ∧ p.grid_x + dx < (mc : Int) ∧
        0 ≤ p.grid_y + dy ∧ p.grid_y + dy < (mr : Int)
    · rw [if_neg (not_not_intro h2)]
      by_cases h3 : grid (p.grid_y + dy).toNat (p.grid_x + dx).toNat = 1
      · rw [if_neg (not_not_intro h3)]
        exact Or.inr ⟨h2.1, h2.2.1, h2.2.2.1, h2.2.2.2, h3, rfl⟩
      · left; rw [if_pos h3]
    · left; rw [if_pos h2]

/-- `try_move` preserves a legal player position. -/
theorem try_move_preserves_safe (grid : CoordGrid) (rows cols : Nat)
    (p : PlayerState) (dx dy : Int) (cont : Bool)
    (hp : PlayerSafe grid rows cols p) :
    PlayerSafe grid rows cols (p.try_move dx dy grid p.total_rows p.total_cols cont).1 := by
  rcases try_move_spec p dx dy grid p.total_rows p.total_cols cont with h | h
  · rw [h]; exact hp
  · rcases h with ⟨hx0, hxc, hy0, hyr, hw, heq⟩
    rw [heq]
    obtain ⟨htr, htc, _, _, _, _, _⟩ := hp
    refine ⟨htr, htc, hx0, ?_, hy0, ?_, ?_⟩
    · rw [← htc]; exact hxc
    · rw [← htr]; exact hyr
    · rw [hw]; omega

/-- `set_moving_direction` touches only the held direction, the facing and
the move timer. -/
theorem set_moving_direction_skeleton (p : PlayerState) (dx dy : Int) :
    (p.set_moving_direction dx dy).grid_x = p.grid_x ∧
    (p.set_moving_direction dx dy).grid_y = p.grid_y ∧
    (p.set_moving_direction dx dy).total_rows = p.total_rows ∧
    (p.set_moving_direction dx dy).total_cols = p.total_cols := by
  unfold PlayerState.set_moving_direction
  by_cases h : p.moving_direction ≠ some (dx, dy)
  · rw [if_pos h]; exact ⟨rfl, rfl, rfl, rfl⟩
  · rw [if_neg h]; exact ⟨rfl, rfl, rfl, rfl⟩

/-- `tickTimers` changes only the two timers; the move timer becomes its
predecessor (also when it was already zero, since the decrement is
guarded). -/
theorem tickTimers_spec (p : PlayerState) :
    p.tickTimers.grid_x = p.grid_x ∧ p.tickTimers.grid_y = p.grid_y ∧
    p.tickTimers.direction = p.direction ∧
    p.tickTimers.total_rows = p.total_rows ∧
    p.tickTimers.total_cols = p.total_cols ∧
    p.tickTimers.moving_direction = p.moving_direction ∧
    p.tickTimers.move_timer = p.move_timer - 1 := by
  unfold PlayerState.tickTimers
  by_cases h1 : 0 < p.move_timer <;> by_cases h2 : 0 < p.interaction_cooldown <;>
    simp [h1, h2] <;> omega

/-- `stepIfDue` is the identity while the move timer is still positive. -/
theorem stepIfDue_of_timer_ne (grid : CoordGrid) (p : PlayerState)
    (h : p.move_timer ≠ 0) : p.stepIfDue grid = p := by
  unfold PlayerState.stepIfDue
  rcases hmd : p.moving_direction with _ | ⟨dx, dy⟩
  · simp only [hmd]
  · simp only [hmd, if_neg h]

theorem update_preserves_safe (grid : CoordGrid) (rows cols : Nat)
    (p : PlayerState) (hp : PlayerSafe grid rows cols p) :
    PlayerSafe grid rows cols (p.update grid) := by
  have htick : PlayerSafe grid rows cols p.tickTimers := by
    obtain ⟨h1, h2, _, h4, h5, _, _⟩ := tickTimers_spec p
    obtain ⟨a1, a2, a3, a4, a5, a6, a7⟩ := hp
    exact ⟨h4.trans a1, h5.trans a2, h1 ▸ a3, h1 ▸ a4, h2 ▸ a5, h2 ▸ a6,
      by rw [h1, h2]; exact a7⟩
  unfold PlayerState.update PlayerState.stepIfDue
  rcases hmd : p.tickTimers.moving_direction with _ | ⟨dx, dy⟩
  · simp only [hmd]; exact htick
  · simp only [hmd]
    by_cases hz : p.tickTimers.move_timer = 0
    · rw [if_pos hz]
      exact try_move_preserves_safe grid rows cols _ dx dy true htick
    · rw [if_neg hz]; exact htick

/-- Every movement input of the main loop preserves a legal position. -/
theorem stepInput_preserves_safe (grid : CoordGrid) (rows cols : Nat)
    (p : PlayerState) (i : GameInput) (hp : PlayerSafe grid rows cols p) :
    PlayerSafe grid rows cols (stepInput grid p i) := by
  cases i with
  | keydown dx dy =>
    have hs := set_moving_direction_skeleton p dx dy
    have hp' : PlayerSafe grid rows cols (p.set_moving_direction dx dy) := by
      obtain ⟨h1, h2, h3, h4⟩ := hs
      obtain ⟨htr, htc, a, b, c, d, e⟩ := hp
      exact ⟨h3.trans htr, h4.trans htc, h1 ▸ a, h1 ▸ b, h2 ▸ c, h2 ▸ d,
        by rw [h1, h2]; exact e⟩
    exact try_move_preserves_safe grid rows cols _ dx dy false hp'
  | keyup =>
    obtain ⟨htr, htc, a, b, c, d, e⟩ := hp
    exact ⟨htr, htc, a, b, c, d, e⟩
  | frame => exact update_preserves_safe grid rows cols p hp

/-- Any sequence of movement inputs preserves a legal position. -/
theorem runInputs_preserves_safe (grid : CoordGrid) (rows cols : Nat) :
    ∀ (l : List GameInput) (p : PlayerState),
      PlayerSafe grid rows cols p →
      PlayerSafe grid rows cols (runInputs grid p l) := by
  intro l
  induction l with
  | nil => intro p hp; exact hp
  | cons i rest ih =>
    intro p hp
    exact ih (stepInput grid p i) (stepInput_preserves_safe grid rows cols p i hp)

/-- C3: `try_move` never moves the player onto a tile whose walkability is
0 or 2 and never off-grid: a committed step's target is in bounds with
walkability exactly 1; a rejected step is a silent no-op returning the
player state completely unchanged (position, facing, timers; the grid is
only read by the function and no error is raised); and for any sequence of
direction inputs (key presses, key releases, frame ticks) a player that
started in bounds on a walkability-1 tile always remains a valid index
whose walkability is not 0. -/
theorem c3_try_move_never_enters_blocked_tiles (grid : CoordGrid)
    (rows cols : Nat) (p : PlayerState) (dx dy : Int) (cont : Bool)
    (inputs : List GameInput)
    (hstart : p.total_rows = rows ∧ p.total_cols = cols ∧
      0 ≤ p.grid_x ∧ p.grid_x < (cols : Int) ∧
      0 ≤ p.grid_y ∧ p.grid_y < (rows : Int) ∧
      grid p.grid_y.toNat p.grid_x.toNat = 1) :
    ((p.try_move dx dy grid rows cols cont).2 = true →
      0 ≤ (p.try_move dx dy grid rows cols cont).1.grid_x ∧
      (p.try_move dx dy grid rows cols cont).1.grid_x < (cols : Int) ∧
      0 ≤ (p.try_move dx dy grid rows cols cont).1.grid_y ∧
      (p.try_move dx dy grid rows cols cont).1.grid_y < (rows : Int) ∧
      grid (p.try_move dx dy grid rows cols cont).1.grid_y.toNat
        (p.try_move dx dy grid rows cols cont).1.grid_x.toNat = 1) ∧
    ((p.try_move dx dy grid rows cols cont).2 = false →
      (p.try_move dx dy grid rows cols cont).1 = p) ∧
    (p.try_move dx dy grid rows cols cont).1.direction = p.direction ∧
    PlayerSafe grid rows cols (runInputs grid p inputs) := by
  have hsafe : PlayerSafe grid rows cols p := by
    obtain ⟨h1, h2, h3, h4, h5, h6, h7⟩ := hstart
    exact ⟨h1, h2, h3, h4, h5, h6, by rw [h7]; omega⟩
  rcases try_move_spec p dx dy grid rows cols cont with h | h
  · refine ⟨?_, ?_, ?_, runInputs_preserves_safe grid rows cols inputs p hsafe⟩
    · intro ht; rw [h] at ht; exact absurd ht (by simp)
    · intro _; rw [h]
    · rw [h]
  · rcases h with ⟨hx0, hxc, hy0, hyr, hw, heq⟩
    refine ⟨?_, ?_, ?_, runInputs_preserves_safe grid rows cols inputs p hsafe⟩
    · intro _; rw [heq]; exact ⟨hx0, hxc, hy0, hyr, hw⟩
    · intro hf; rw [heq] at hf; exact absurd hf (by simp)
    · rw [heq]

/-- C3, witness: a 1 by 2 all-walkable map; one key press, one release,
one frame. -/
theorem c3_try_move_never_enters_blocked_tiles_witness :
    ((⟨0, 0, "down", 1, 2, 5, 2, 0, none, 0, 20⟩ : PlayerState).total_rows = 1 ∧
      (⟨0, 0, "down", 1, 2, 5, 2, 0, none, 0, 20⟩ : PlayerState).total_cols = 2 ∧
      (0 : Int) ≤ (⟨0, 0, "down", 1, 2, 5, 2, 0, none, 0, 20⟩ : PlayerState).grid_x ∧
      (⟨0, 0, "down", 1, 2, 5, 2, 0, none, 0, 20⟩ : PlayerState).grid_x < ((2 : Nat) : Int) ∧
      (0 : Int) ≤ (⟨0, 0, "down", 1, 2, 5, 2, 0, none, 0, 20⟩ : PlayerState).grid_y ∧
      (⟨0, 0, "down", 1, 2, 5, 2, 0, none, 0, 20⟩ : PlayerState).grid_y < ((1 : Nat) : Int) ∧
      (fun _ _ => 1 : CoordGrid)
        (⟨0, 0, "down", 1, 2, 5, 2, 0, none, 0, 20⟩ : PlayerState).grid_y.toNat
        (⟨0, 0, "down", 1, 2, 5, 2, 0, none, 0, 20⟩ : PlayerState).grid_x.toNat = 1) ∧
    PlayerSafe (fun _ _ => 1) 1 2
      (runInputs (fun _ _ => 1) ⟨0, 0, "down", 1, 2, 5, 2, 0, none, 0, 20⟩
        [GameInput.keydown 1 0, GameInput.keyup, GameInput.frame]) :=
  ⟨by decide,
   (c3_try_move_never_enters_blocked_tiles (fun _ _ => 1) 1 2
      ⟨0, 0, "down", 1, 2, 5, 2, 0, none, 0, 20⟩ 1 0 false
      [GameInput.keydown 1 0, GameInput.keyup, GameInput.frame]
      (by decide)).2.2.2⟩

/-- While the move timer will stay positive through this frame, `update`
only decrements timers: the position is held. -/
theorem update_no_step (grid : CoordGrid) (q : PlayerState)
    (h : 2 ≤ q.move_timer) :
    (q.update grid).grid_x = q.grid_x ∧ (q.update grid).grid_y = q.grid_y ∧
    (q.update grid).move_timer = q.move_timer - 1 := by
  obtain ⟨h1, h2, _, _, _, _, h7⟩ := tickTimers_spec q
  have hne : q.tickTimers.move_timer ≠ 0 := by rw [h7]; omega
  unfold PlayerState.update
  rw [stepIfDue_of_timer_ne grid _ hne]
  exact ⟨h1, h2, h7⟩

/-- Strictly fewer frames than the current move timer leave the position
unchanged and merely count the timer down. -/
theorem runFrames_holds_position (grid : CoordGrid) :
    ∀ (j : Nat) (q : PlayerState), j < q.move_timer →
      (runFrames grid q j).grid_x = q.grid_x ∧
      (runFrames grid q j).grid_y = q.grid_y ∧
      (runFrames grid q j).move_timer = q.move_timer - j := by
  intro j
  induction j with
  | zero => intro q _; exact ⟨rfl, rfl, by show q.move_timer = q.move_timer - 0; omega⟩
  | succ n ih =>
    intro q h
    have h2 : 2 ≤ q.move_timer := by omega
    obtain ⟨e1, e2, e3⟩ := update_no_step grid q h2
    have hn : n < (q.update grid).move_timer := by rw [e3]; omega
    obtain ⟨f1, f2, f3⟩ := ih (q.update grid) hn
    rw [runFrames]
    exact ⟨f1.trans e1, f2.trans e2, by rw [f3, e3]; omega⟩

/-- C7, counterexample.  A fresh held-direction intent (previous held
direction is `none`, so it differs from `(1, 0)`) handled by the main
loop's keydown branch on an all-walkable 1 by 2 map: facing and the
initial cooldown (5) are set, but the handler's immediate non-continuous
`try_move` commits a step at once — the position changes from column 0 to
column 1 with zero frames elapsed, i.e. before the initial cooldown has
reached zero, contradicting the claim that the position is unchanged
between the new intent and the cooldown's expiry. -/
theorem c7_counterexample :
    (⟨0, 0, "down", 1, 2, 5, 2, 0, none, 0, 20⟩ : PlayerState).moving_direction ≠
      some (1, 0) ∧
    (⟨0, 0, "down", 1, 2, 5, 2, 0, none, 0, 20⟩ : PlayerState).move_cooldown_initial = 5 ∧
    (⟨0, 0, "down", 1, 2, 5, 2, 0, none, 0, 20⟩ : PlayerState).grid_x = 0 ∧
    (stepInput (fun _ _ => 1) ⟨0, 0, "down", 1, 2, 5, 2, 0, none, 0, 20⟩
      (GameInput.keydown 1 0)).move_timer = 5 ∧
    (stepInput (fun _ _ => 1) ⟨0, 0, "down", 1, 2, 5, 2, 0, none, 0, 20⟩
      (GameInput.keydown 1 0)).grid_x = 1 :=
  ⟨by decide, by decide, by decide, by decide, by decide⟩

/-- C7 (amended): on a new held-direction intent the facing is updated
immediately and the initial cooldown is armed, exactly as claimed; but the
keydown handler itself (main loop lines 646-648) additionally commits one
immediate non-continuous step at intent time.  Apart from that single
immediate step, no further movement step commits until the armed cooldown
expires: for any number of frames smaller than the armed timer, the
position stays at its post-handler value. -/
theorem c7_initial_cooldown_blocks_followup_steps (grid : CoordGrid)
    (p : PlayerState) (dx dy : Int) (j : Nat)
    (hnew : p.moving_direction ≠ some (dx, dy))
    (hj : j < (stepInput grid p (GameInput.keydown dx dy)).move_timer) :
    ((p.set_moving_direction dx dy).direction = directionName dx dy ∧
     (p.set_moving_direction dx dy).move_timer = p.move_cooldown_initial ∧
     (p.set_moving_direction dx dy).moving_direction = some (dx, dy)) ∧
    ((runFrames grid (stepInput grid p (GameInput.keydown dx dy)) j).grid_x =
       (stepInput grid p (GameInput.keydown dx dy)).grid_x ∧
     (runFrames grid (stepInput grid p (GameInput.keydown dx dy)) j).grid_y =
       (stepInput grid p (GameInput.keydown dx dy)).grid_y) := by
  constructor
  · unfold PlayerState.set_moving_direction
    rw [if_pos hnew]
    exact ⟨rfl, rfl, rfl⟩
  · obtain ⟨a, b, _⟩ := runFrames_holds_position grid j _ hj
    exact ⟨a, b⟩

/-- C7, witness: the concrete handler step with initial cooldown 5 and 3
elapsed frames. -/
theorem c7_initial_cooldown_blocks_followup_steps_witness :
    ((⟨0, 0, "down", 1, 2, 5, 2, 0, none, 0, 20⟩ : PlayerState).moving_direction ≠
        some (1, 0) ∧
      3 < (stepInput (fun _ _ => 1) ⟨0, 0, "down", 1, 2, 5, 2, 0, none, 0, 20⟩
        (GameInput.keydown 1 0)).move_timer) ∧
    (runFrames (fun _ _ => 1)
        (stepInput (fun _ _ => 1) ⟨0, 0, "down", 1, 2, 5, 2, 0, none, 0, 20⟩
          (GameInput.keydown 1 0)) 3).grid_x =
      (stepInput (fun _ _ => 1) ⟨0, 0, "down", 1, 2, 5, 2, 0, none, 0, 20⟩
        (GameInput.keydown 1 0)).grid_x :=
  ⟨⟨by decide, by decide⟩,
   (c7_initial_cooldown_blocks_followup_steps (fun _ _ => 1)
      ⟨0, 0, "down", 1, 2, 5, 2, 0, none, 0, 20⟩ 1 0 3 (by decide) (by decide)).2.1⟩

/-- C5: entering a building and then exiting restores the player to
exactly the position held immediately before entry, and restores the
outdoor map details (walkability grid and tile-type grid), and the
building list, equal by content to the pre-entry ones — they come back
from the snapshot taken at entry, not from a fresh generation.  The first
hypothesis is the main loop's trigger guard (lines 620-624): the entrance
coordinates passed to `switch_to_indoor` are the player's own position.
The state `st'` at exit time is arbitrary except that nothing while
indoors has touched the snapshot slot, as in the source, where only
`switch_to_indoor` writes `outdoor_map_data`. -/
theorem c5_scene_round_trip (st : GameState) (coords : Int × Int)
    (is0 : InteriorSettings) (gs : GameSettings) (st' : GameState)
    (hcoords : coords = (st.player.grid_x, st.player.grid_y))
    (hsnap : st'.outdoor_map_data =
      (switch_to_indoor st coords is0 gs).outdoor_map_data) :
    (switch_to_outdoor st').player.grid_x = st.player.grid_x ∧
    (switch_to_outdoor st').player.grid_y = st.player.grid_y ∧
    (switch_to_outdoor st').current_map_data = st.current_map_data ∧
    (switch_to_outdoor st').placed_buildings_data = st.placed_buildings_data := by
  subst hcoords
  have h1 : (switch_to_indoor st (st.player.grid_x, st.player.grid_y) is0 gs).outdoor_map_data =
      some ⟨st.current_map_data, (st.player.grid_x, st.player.grid_y),
        st.placed_buildings_data⟩ := rfl
  rw [h1] at hsnap
  unfold switch_to_outdoor
  rw [hsnap]
  exact ⟨rfl, rfl, rfl, rfl⟩

/-- C5, witness: the concrete round trip through a generated interior. -/
theorem c5_scene_round_trip_witness :
    (((3 : Int), (4 : Int)) =
      (sampleOutdoorState.player.grid_x, sampleOutdoorState.player.grid_y)) ∧
    (switch_to_outdoor (switch_to_indoor sampleOutdoorState (3, 4)
        ⟨8, 8, "wood_floor", "stone_wall", "door"⟩
        ⟨5, 2, 32, 800, 600, 2⟩)).player.grid_x =
      sampleOutdoorState.player.grid_x ∧
    (switch_to_outdoor (switch_to_indoor sampleOutdoorState (3, 4)
        ⟨8, 8, "wood_floor", "stone_wall", "door"⟩
        ⟨5, 2, 32, 800, 600, 2⟩)).current_map_data =
      sampleOutdoorState.current_map_data :=
  ⟨by decide,
   (c5_scene_round_trip sampleOutdoorState (3, 4)
      ⟨8, 8, "wood_floor", "stone_wall", "door"⟩ ⟨5, 2, 32, 800, 600, 2⟩
      (switch_to_indoor sampleOutdoorState (3, 4)
        ⟨8, 8, "wood_floor", "stone_wall", "door"⟩ ⟨5, 2, 32, 800, 600, 2⟩)
      (by decide) rfl).1,
   (c5_scene_round_trip sampleOutdoorState (3, 4)
      ⟨8, 8, "wood_floor", "stone_wall", "door"⟩ ⟨5, 2, 32, 800, 600, 2⟩
      (switch_to_indoor sampleOutdoorState (3, 4)
        ⟨8, 8, "wood_floor", "stone_wall", "door"⟩ ⟨5, 2, 32, 800, 600, 2⟩)
      (by decide) rfl).2.2.1⟩

/-- A tile index inside the half-open band `[R * RS, R * RS + RS)` has
super index `R`. -/
theorem div_eq_of_band (R r RS : Nat) (h1 : R * RS ≤ r)
    (h2 : r < R * RS + RS) : r / RS = R := by
  have hRS : 0 < RS := by nlinarith
  have ha : R ≤ r / RS := (Nat.le_div_iff_mul_le hRS).2 h1
  have hb : r / RS < R + 1 := by
    rw [Nat.div_lt_iff_lt_mul hRS]
    calc r < R * RS + RS := h2
    _ = (R + 1) * RS := by ring
  omega

/-- Reading a grid and a tile map after one rasterization write. -/
theorem rasterizeCell_spec (zt : BiomeType) (r c : Nat)
    (gm : CoordGrid × TileMap) (r' c' : Nat) :
    (rasterizeCell zt r c gm).1 r' c' =
      (if r' = r ∧ c' = c then zoneWalk zt else gm.1 r' c') ∧
    (rasterizeCell zt r c gm).2 r' c' =
      (if r' = r ∧ c' = c then some (zoneTile zt) else gm.2 r' c') := by
  cases zt <;> exact ⟨rfl, rfl⟩

/-- Effect of one rasterized row segment of a super-cell. -/
theorem rasterCols_spec (zt : BiomeType) (rr c0 : Nat) :
    ∀ (n : Nat) (gm : CoordGrid × TileMap) (r' c' : Nat),
      ((List.range n).foldl
        (fun gm2 dc => rasterizeCell zt rr (c0 + dc) gm2) gm).1 r' c' =
        (if r' = rr ∧ c0 ≤ c' ∧ c' < c0 + n then zoneWalk zt
         else gm.1 r' c') ∧
      ((List.range n).foldl
        (fun gm2 dc => rasterizeCell zt rr (c0 + dc) gm2) gm).2 r' c' =
        (if r' = rr ∧ c0 ≤ c' ∧ c' < c0 + n then some (zoneTile zt)
         else gm.2 r' c') := by
  intro n
  induction n with
  | zero =>
    intro gm r' c'
    have h : ¬(r' = rr ∧ c0 ≤ c' ∧ c' < c0 + 0) := by omega
    rw [List.range_zero]
    exact ⟨by rw [List.foldl_nil, if_neg h], by rw [List.foldl_nil, if_neg h]⟩
  | succ m ih =>
    intro gm r' c'
    rw [List.range_succ, List.foldl_append, List.foldl_cons, List.foldl_nil]
    obtain ⟨e1, e2⟩ := rasterizeCell_spec zt rr (c0 + m)
      ((List.range m).foldl (fun gm2 dc => rasterizeCell zt rr (c0 + dc) gm2) gm)
      r' c'
    obtain ⟨f1, f2⟩ := ih gm r' c'
    constructor
    · rw [e1, f1]; split_ifs <;> first | rfl | omega
    · rw [e2, f2]; split_ifs <;> first | rfl | omega

/-- Effect of rasterizing the first `n` rows of a super-cell block. -/
theorem rasterRegionAux_spec (RS : Nat) (zt : BiomeType) (r0 c0 : Nat) :
    ∀ (n : Nat) (gm : CoordGrid × TileMap) (r' c' : Nat),
      ((List.range n).foldl
        (fun gm1 dr =>
          (List.range RS).foldl
            (fun gm2 dc => rasterizeCell zt (r0 + dr) (c0 + dc) gm2) gm1)
        gm).1 r' c' =
        (if r0 ≤ r' ∧ r' < r0 + n ∧ c0 ≤ c' ∧ c' < c0 + RS then zoneWalk zt
         else gm.1 r' c') ∧
      ((List.range n).foldl
        (fun gm1 dr =>
          (List.range RS).foldl
            (fun gm2 dc => rasterizeCell zt (r0 + dr) (c0 + dc) gm2) gm1)
        gm).2 r' c' =
        (if r0 ≤ r' ∧ r' < r0 + n ∧ c0 ≤ c' ∧ c' < c0 + RS then
          some (zoneTile zt)
         else gm.2 r' c') := by
  intro n
  induction n with
  | zero =>
    intro gm r' c'
    have h : ¬(r0 ≤ r' ∧ r' < r0 + 0 ∧ c0 ≤ c' ∧ c' < c0 + RS) := by omega
    rw [List.range_zero]
    exact ⟨by rw [List.foldl_nil, if_neg h], by rw [List.foldl_nil, if_neg h]⟩
  | succ m ih =>
    intro gm r' c'
    rw [List.range_succ, List.foldl_append, List.foldl_cons, List.foldl_nil]
    obtain ⟨e1, e2⟩ := rasterCols_spec zt (r0 + m) c0 RS
      ((List.range m).foldl
        (fun gm1 dr =>
          (List.range RS).foldl
            (fun gm2 dc => rasterizeCell zt (r0 + dr) (c0 + dc) gm2) gm1) gm)
      r' c'
    obtain ⟨f1, f2⟩ := ih gm r' c'
    constructor
    · rw [e1, f1]; split_ifs <;> first | rfl | omega
    · rw [e2, f2]; split_ifs <;> first | rfl | omega

/-- Effect of `rasterRegion`: exactly the block's tiles are written. -/
theorem rasterRegion_spec (RS : Nat) (zt : BiomeType) (r0 c0 : Nat)
    (gm : CoordGrid × TileMap) (r' c' : Nat) :
    (rasterRegion RS zt r0 c0 gm).1 r' c' =
      (if r0 ≤ r' ∧ r' < r0 + RS ∧ c0 ≤ c' ∧ c' < c0 + RS then zoneWalk zt
       else gm.1 r' c') ∧
    (rasterRegion RS zt r0 c0 gm).2 r' c' =
      (if r0 ≤ r' ∧ r' < r0 + RS ∧ c0 ≤ c' ∧ c' < c0 + RS then
        some (zoneTile zt)
       else gm.2 r' c') :=
  rasterRegionAux_spec RS zt r0 c0 RS gm r' c'

/-- Effect of rasterizing the first `n` super-columns of super-row `R`. -/
theorem rasterBand_spec (RS : Nat) (sg : SuperGrid) (R : Nat) :
    ∀ (n : Nat) (gm : CoordGrid × TileMap) (r' c' : Nat),
      ((List.range n).foldl
        (fun gm2 super_c =>
          rasterRegion RS (sg R super_c) (R * RS) (super_c * RS) gm2)
        gm).1 r' c' =
        (if R * RS ≤ r' ∧ r' < R * RS + RS ∧ c' < n * RS then
          zoneWalk (sg R (c' / RS))
         else gm.1 r' c') ∧
      ((List.range n).foldl
        (fun gm2 super_c =>
          rasterRegion RS (sg R super_c) (R * RS) (super_c * RS) gm2)
        gm).2 r' c' =
        (if R * RS ≤ r' ∧ r' < R * RS + RS ∧ c' < n * RS then
          some (zoneTile (sg R (c' / RS)))
         else gm.2 r' c') := by
  intro n
  induction n with
  | zero =>
    intro gm r' c'
    have h : ¬(R * RS ≤ r' ∧ r' < R * RS + RS ∧ c' < 0 * RS) := by omega
    rw [List.range_zero]
    exact ⟨by rw [List.foldl_nil, if_neg h], by rw [List.foldl_nil, if_neg h]⟩
  | succ m ih =>
    intro gm r' c'
    rw [List.range_succ, List.foldl_append, List.foldl_cons, List.foldl_nil]
    obtain ⟨e1, e2⟩ := rasterRegion_spec RS (sg R m) (R * RS) (m * RS)
      ((List.range m).foldl
        (fun gm2 super_c =>
          rasterRegion RS (sg R super_c) (R * RS) (super_c * RS) gm2) gm)
      r' c'
    obtain ⟨f1, f2⟩ := ih gm r' c'
    have hmul : (m + 1) * RS = m * RS + RS := by ring
    constructor
    · rw [e1, f1, hmul]
      by_cases hA : R * RS ≤ r' ∧ r' < R * RS + RS ∧ m * RS ≤ c' ∧ c' < m * RS + RS
      · rw [if_pos hA, if_pos (by omega),
          div_eq_of_band m c' RS hA.2.2.1 hA.2.2.2]
      · rw [if_neg hA]
        by_cases hB : R * RS ≤ r' ∧ r' < R * RS + RS ∧ c' < m * RS
        · rw [if_pos hB, if_pos (by omega)]
        · rw [if_neg hB, if_neg (by omega)]
    · rw [e2, f2, hmul]
      by_cases hA : R * RS ≤ r' ∧ r' < R * RS + RS ∧ m * RS ≤ c' ∧ c' < m * RS + RS
      · rw [if_pos hA, if_pos (by omega),
          div_eq_of_band m c' RS hA.2.2.1 hA.2.2.2]
      · rw [if_neg hA]
        by_cases hB : R * RS ≤ r' ∧ r' < R * RS + RS ∧ c' < m * RS
        · rw [if_pos hB, if_pos (by omega)]
        · rw [if_neg hB, if_neg (by omega)]

/-- Effect of rasterizing the first `n` super-rows. -/
theorem rasterRows_spec (RS sc : Nat) (sg : SuperGrid) :
    ∀ (n : Nat) (gm : CoordGrid × TileMap) (r' c' : Nat),
      ((List.range n).foldl
        (fun gm1 super_r =>
          (List.range sc).foldl
            (fun gm2 super_c =>
              rasterRegion RS (sg super_r super_c) (super_r * RS)
                (super_c * RS) gm2) gm1)
        gm).1 r' c' =
        (if r' < n * RS ∧ c' < sc * RS then
          zoneWalk (sg (r' / RS) (c' / RS))
         else gm.1 r' c') ∧
      ((List.range n).foldl
        (fun gm1 super_r =>
          (List.range sc).foldl
            (fun gm2 super_c =>
              rasterRegion RS (sg super_r super_c) (super_r * RS)
                (super_c * RS) gm2) gm1)
        gm).2 r' c' =
        (if r' < n * RS ∧ c' < sc * RS then
          some (zoneTile (sg (r' / RS) (c' / RS)))
         else gm.2 r' c') := by
  intro n
  induction n with
  | zero =>
    intro gm r' c'
    have h : ¬(r' < 0 * RS ∧ c' < sc * RS) := by omega
    rw [List.range_zero]
    exact ⟨by rw [List.foldl_nil, if_neg h], by rw [List.foldl_nil, if_neg h]⟩
  | succ m ih =>
    intro gm r' c'
    rw [List.range_succ, List.foldl_append, List.foldl_cons, List.foldl_nil]
    obtain ⟨e1, e2⟩ := rasterBand_spec RS sg m sc
      ((List.range m).foldl
        (fun gm1 super_r =>
          (List.range sc).foldl
            (fun gm2 super_c =>
              rasterRegion RS (sg super_r super_c) (super_r * RS)
                (super_c * RS) gm2) gm1) gm)
      r' c'
    obtain ⟨f1, f2⟩ := ih gm r' c'
    have hmul : (m + 1) * RS = m * RS + RS := by ring
    constructor
    · rw [e1, f1, hmul]
      by_cases hA : m * RS ≤ r' ∧ r' < m * RS + RS ∧ c' < sc * RS
      · rw [if_pos hA, if_pos (by omega),
          div_eq_of_band m r' RS hA.1 hA.2.1]
      · rw [if_neg hA]
        by_cases hB : r' < m * RS ∧ c' < sc * RS
        · rw [if_pos hB, if_pos (by omega)]
        · rw [if_neg hB, if_neg (by omega)]
    · rw [e2, f2, hmul]
      by_cases hA : m * RS ≤ r' ∧ r' < m * RS + RS ∧ c' < sc * RS
      · rw [if_pos hA, if_pos (by omega),
          div_eq_of_band m r' RS hA.1 hA.2.1]
      · rw [if_neg hA]
        by_cases hB : r' < m * RS ∧ c' < sc * RS
        · rw [if_pos hB, if_pos (by omega)]
        · rw [if_neg hB, if_neg (by omega)]

/-- Pointwise description of the full rasterization pass: a tile inside
the covered area takes its super-cell's walkability and base tile type;
every other tile keeps the `np.zeros` / `np.empty` initial values. -/
theorem rasterize_spec (RS sr sc : Nat) (sg : SuperGrid) (r c : Nat) :
    (rasterize RS sr sc sg).1 r c =
      (if r < sr * RS ∧ c < sc * RS then zoneWalk (sg (r / RS) (c / RS))
       else 0) ∧
    (rasterize RS sr sc sg).2 r c =
      (if r < sr * RS ∧ c < sc * RS then
        some (zoneTile (sg (r / RS) (c / RS)))
       else none) :=
  rasterRows_spec RS sc sg sr (fun _ _ => 0, fun _ _ => none) r c

theorem decoStep_refl (grid : CoordGrid) (st : TileMap × PyRand) :
    DecoStep grid st st :=
  fun _ _ => Or.inl rfl

theorem decoStep_trans (grid : CoordGrid) {a b c' : TileMap × PyRand}
    (h1 : DecoStep grid a b) (h2 : DecoStep grid b c') :
    DecoStep grid a c' := by
  intro r c
  rcases h2 r c with h | h
  · rcases h1 r c with h' | h'
    · exact Or.inl (h.trans h')
    · exact Or.inr ⟨h'.1, by rw [h]; exact h'.2⟩
  · exact Or.inr h

/-- One decoration step respects the evolution relation: a tile is only
re-tagged when its walkability is 1, and then only to tallgrass or
flowers. -/
theorem decorateCell_decoStep (tgp flp : ℚ) (grid : CoordGrid) (r c : Nat)
    (st : TileMap × PyRand) :
    DecoStep grid st (decorateCell tgp flp grid r c st) := by
  intro r' c'
  simp only [decorateCell]
  by_cases hg : grid r c = 1
  · rw [if_pos hg]
    by_cases h1 : (pyRandom st.2).1 < tgp
    · rw [if_pos h1]
      by_cases he : r' = r ∧ c' = c
      · exact Or.inr ⟨by rw [he.1, he.2]; exact hg,
          Or.inl (by simp [setT, he.1, he.2])⟩
      · exact Or.inl (by simp [setT, he])
    · rw [if_neg h1]
      by_cases h2 : (pyRandom (pyRandom st.2).2).1 < flp
      · rw [if_pos h2]
        by_cases he : r' = r ∧ c' = c
        · exact Or.inr ⟨by rw [he.1, he.2]; exact hg,
            Or.inr (by simp [setT, he.1, he.2])⟩
        · exact Or.inl (by simp [setT, he])
      · rw [if_neg h2]; exact Or.inl rfl
  · rw [if_neg hg]; exact Or.inl rfl

/-- Folding steps that each respect the evolution relation respects it. -/
theorem foldl_decoStep {α : Type} (grid : CoordGrid)
    (f : (TileMap × PyRand) → α → (TileMap × PyRand))
    (hf : ∀ st a, DecoStep grid st (f st a)) :
    ∀ (l : List α) (st : TileMap × PyRand), DecoStep grid st (l.foldl f st) := by
  intro l
  induction l with
  | nil => intro st; exact decoStep_refl grid st
  | cons a rest ih =>
    intro st
    rw [List.foldl_cons]
    exact decoStep_trans grid (hf st a) (ih (f st a))

/-- The whole decoration pass respects the evolution relation. -/
theorem decorate_decoStep (rows cols : Nat) (tgp flp : ℚ) (grid : CoordGrid)
    (tm : TileMap) (g : PyRand) :
    DecoStep grid (tm, g) (decorate rows cols tgp flp grid tm g) := by
  unfold decorate
  exact foldl_decoStep grid _
    (fun st r => foldl_decoStep grid _
      (fun st2 c => decorateCell_decoStep tgp flp grid r c st2)
      (List.range cols) st)
    (List.range rows) (tm, g)

/-- The walkability grid handed back by `generate_layered_map` (in the
non-degenerate case) is exactly the rasterization output: the decoration
pass reads it and writes only the tile-type grid. -/
theorem generateBody_grid_is_raster (rows cols : Nat) (ms : MapSettings)
    (g : PyRand) :
    (generateBody rows cols ms g).1.1 =
      (rasterize ms.super_grid_region_size (rows / ms.super_grid_region_size)
        (cols / ms.super_grid_region_size)
        ((regionGenerate (rows / ms.super_grid_region_size)
          (cols / ms.super_grid_region_size) ms.max_path_percentage
          ms.max_map_generation_attempts g).1)).1 := rfl

/-- C6: after rasterization every tile inside a super-cell has walkability
0 when its zone is Lake or Forest and 1 when its zone is Path; a tile
whose walkability is not 1 is never rolled for decoration; on a walkable
tile the tallgrass roll comes first and the flowers roll is performed only
when the tallgrass roll failed; the decoration pass can only re-tag
walkable tiles (to tallgrass or flowers); and decoration never changes any
walkability value — the grid `generate_layered_map` returns is the
rasterization output itself. -/
theorem c6_rasterization_walkability_and_decoration (RS sr sc : Nat)
    (sg : SuperGrid) (rows cols : Nat) (tgp flp : ℚ) (grid : CoordGrid)
    (tm : TileMap) (g : PyRand) (ms : MapSettings) (seed : Option Nat)
    (g0 : PyRand) :
    (∀ r c, r < sr * RS → c < sc * RS →
      (rasterize RS sr sc sg).1 r c = zoneWalk (sg (r / RS) (c / RS))) ∧
    (∀ r c st, grid r c ≠ 1 → decorateCell tgp flp grid r c st = st) ∧
    (∀ r c (st : TileMap × PyRand), grid r c = 1 →
      ((pyRandom st.2).1 < tgp →
        decorateCell tgp flp grid r c st =
          (setT st.1 r c (some "tallgrass"), (pyRandom st.2).2)) ∧
      (¬ (pyRandom st.2).1 < tgp →
        decorateCell tgp flp grid r c st =
          (if (pyRandom (pyRandom st.2).2).1 < flp then
            (setT st.1 r c (some "flowers"), (pyRandom (pyRandom st.2).2).2)
           else (st.1, (pyRandom (pyRandom st.2).2).2)))) ∧
    (∀ r c, (decorate rows cols tgp flp grid tm g).1 r c = tm r c ∨
      (grid r c = 1 ∧
        ((decorate rows cols tgp flp grid tm g).1 r c = some "tallgrass" ∨
         (decorate rows cols tgp flp grid tm g).1 r c = some "flowers"))) ∧
    (∀ res, generate_layered_map rows cols ms seed g0 = some res →
      res.1.1 =
        (rasterize ms.super_grid_region_size
          (rows / ms.super_grid_region_size)
          (cols / ms.super_grid_region_size)
          ((regionGenerate (rows / ms.super_grid_region_size)
            (cols / ms.super_grid_region_size) ms.max_path_percentage
            ms.max_map_generation_attempts (seedOpt seed g0)).1)).1) := by
  refine ⟨?_, ?_, ?_, ?_, ?_⟩
  · intro r c hr hc
    rw [(rasterize_spec RS sr sc sg r c).1, if_pos ⟨hr, hc⟩]
  · intro r c st hg
    simp only [decorateCell]
    rw [if_neg hg]
  · intro r c st hg
    constructor
    · intro h1
      simp only [decorateCell]
      rw [if_pos hg, if_pos h1]
    · intro h1
      simp only [decorateCell]
      rw [if_pos hg, if_neg h1]
  · exact fun r c => decorate_decoStep rows cols tgp flp grid tm g r c
  · intro res hres
    unfold generate_layered_map at hres
    by_cases hdeg : rows / ms.super_grid_region_size = 0 ∨
        cols / ms.super_grid_region_size = 0
    · rw [if_pos hdeg] at hres; exact absurd hres (by simp)
    · rw [if_neg hdeg] at hres
      have : generateBody rows cols ms (seedOpt seed g0) = res :=
        Option.some.inj hres
      rw [← this]
      exact generateBody_grid_is_raster rows cols ms (seedOpt seed g0)

/-- C6, witness: a 2-region-size all-Path world, a blocked tile not
rolled, and a committed tallgrass roll. -/
theorem c6_rasterization_walkability_and_decoration_witness :
    (1 < 1 * 2 ∧ 1 < 1 * 2 ∧
      (rasterize 2 1 1 (fun _ _ => BiomeType.path)).1 1 1 =
        zoneWalk ((fun _ _ => BiomeType.path : SuperGrid) (1 / 2) (1 / 2))) ∧
    ((fun _ _ => (0 : Nat)) 0 0 ≠ 1 ∧
      decorateCell (mkRat 1 1) (mkRat 1 1) (fun _ _ => 0) 0 0
        (fun _ _ => none, ⟨fun _ => 0, 0⟩) =
        (fun _ _ => none, ⟨fun _ => 0, 0⟩)) ∧
    ((fun _ _ => (1 : Nat)) 0 0 = 1 ∧
      (pyRandom (⟨fun _ => 0, 0⟩ : PyRand)).1 < mkRat 1 1 ∧
      decorateCell (mkRat 1 1) (mkRat 1 1) (fun _ _ => 1) 0 0
        (fun _ _ => none, ⟨fun _ => 0, 0⟩) =
        (setT (fun _ _ => none) 0 0 (some "tallgrass"),
         (pyRandom (⟨fun _ => 0, 0⟩ : PyRand)).2)) :=
  ⟨⟨by decide, by decide,
    (c6_rasterization_walkability_and_decoration 2 1 1
      (fun _ _ => BiomeType.path) 1 1 (mkRat 1 1) (mkRat 1 1) (fun _ _ => 1)
      (fun _ _ => none) ⟨fun _ => 0, 0⟩ ⟨2, mkRat 7 20, 5, 0, 0⟩ none
      ⟨fun _ => 0, 0⟩).1 1 1 (by decide) (by decide)⟩,
   ⟨by decide,
    (c6_rasterization_walkability_and_decoration 2 1 1
      (fun _ _ => BiomeType.path) 1 1 (mkRat 1 1) (mkRat 1 1) (fun _ _ => 0)
      (fun _ _ => none) ⟨fun _ => 0, 0⟩ ⟨2, mkRat 7 20, 5, 0, 0⟩ none
      ⟨fun _ => 0, 0⟩).2.1 0 0 (fun _ _ => none, ⟨fun _ => 0, 0⟩)
      (by decide)⟩,
   ⟨by decide, by decide,
    ((c6_rasterization_walkability_and_decoration 2 1 1
      (fun _ _ => BiomeType.path) 1 1 (mkRat 1 1) (mkRat 1 1) (fun _ _ => 1)
      (fun _ _ => none) ⟨fun _ => 0, 0⟩ ⟨2, mkRat 7 20, 5, 0, 0⟩ none
      ⟨fun _ => 0, 0⟩).2.2.1 0 0 (fun _ _ => none, ⟨fun _ => 0, 0⟩)
      (by decide)).1 (by decide)⟩⟩

/-- C10: when `rows` or `cols` is not an exact multiple of the region
size, every tile of the trailing remainder strip (row at or beyond
`(rows / regionSize) * regionSize`, or column at or beyond
`(cols / regionSize) * regionSize`) comes out of `generate_layered_map`
with walkability 0 and a null (never written) tile type: such tiles belong
to no super-cell, the rasterizer never writes them, and the decoration
pass skips them because their walkability is not 1. -/
theorem c10_remainder_strip_impassable_and_untyped (rows cols : Nat)
    (ms : MapSettings) (seed : Option Nat) (g : PyRand) (r c : Nat)
    (res : (CoordGrid × TileMap) × PyRand)
    (hres : generate_layered_map rows cols ms seed g = some res)
    (hrc : (rows / ms.super_grid_region_size) * ms.super_grid_region_size ≤ r ∨
           (cols / ms.super_grid_region_size) * ms.super_grid_region_size ≤ c) :
    res.1.1 r c = 0 ∧ res.1.2 r c = none := by
  unfold generate_layered_map at hres
  by_cases hdeg : rows / ms.super_grid_region_size = 0 ∨
      cols / ms.super_grid_region_size = 0
  · rw [if_pos hdeg] at hres; exact absurd hres (by simp)
  · rw [if_neg hdeg] at hres
    have hbody : generateBody rows cols ms (seedOpt seed g) = res :=
      Option.some.inj hres
    subst hbody
    set RS := ms.super_grid_region_size with hRS
    set sr := rows / RS with hsr
    set sc := cols / RS with hsc
    set sg := (regionGenerate sr sc ms.max_path_percentage
      ms.max_map_generation_attempts (seedOpt seed g)).1 with hsg
    have hout : ¬(r < sr * RS ∧ c < sc * RS) := by
      rcases hrc with h | h
      · intro hx; omega
      · intro hx; omega
    have hgrid : (generateBody rows cols ms (seedOpt seed g)).1.1 r c = 0 := by
      rw [generateBody_grid_is_raster]
      rw [(rasterize_spec RS sr sc sg r c).1, if_neg hout]
    refine ⟨hgrid, ?_⟩
    have hraster_tiles : (rasterize RS sr sc sg).2 r c = none := by
      rw [(rasterize_spec RS sr sc sg r c).2, if_neg hout]
    have hdec := decorate_decoStep rows cols ms.tallgrass_probability
      ms.flowers_probability (rasterize RS sr sc sg).1
      (rasterize RS sr sc sg).2
      (regionGenerate sr sc ms.max_path_percentage
        ms.max_map_generation_attempts (seedOpt seed g)).2.2 r c
    have hgrid0 : (rasterize RS sr sc sg).1 r c = 0 := by
      rw [(rasterize_spec RS sr sc sg r c).1, if_neg hout]
    rcases hdec with h | h
    · show (decorate rows cols ms.tallgrass_probability ms.flowers_probability
        (rasterize RS sr sc sg).1 (rasterize RS sr sc sg).2
        (regionGenerate sr sc ms.max_path_percentage
          ms.max_map_generation_attempts (seedOpt seed g)).2.2).1 r c = none
      rw [h]; exact hraster_tiles
    · exact absurd h.1 (by rw [hgrid0]; omega)

/-- C10, witness: a 3 by 3 world with region size 2 — tile (2, 0) lies in
the remainder strip. -/
theorem c10_remainder_strip_impassable_and_untyped_witness :
    ((3 / (⟨2, 1, 1, 0, 0⟩ : MapSettings).super_grid_region_size) *
        (⟨2, 1, 1, 0, 0⟩ : MapSettings).super_grid_region_size ≤ 2 ∨
      (3 / (⟨2, 1, 1, 0, 0⟩ : MapSettings).super_grid_region_size) *
        (⟨2, 1, 1, 0, 0⟩ : MapSettings).super_grid_region_size ≤ 0) ∧
    ((generateBody 3 3 ⟨2, 1, 1, 0, 0⟩ (seedOpt none ⟨fun _ => 0, 0⟩)).1.1 2 0 = 0 ∧
     (generateBody 3 3 ⟨2, 1, 1, 0, 0⟩ (seedOpt none ⟨fun _ => 0, 0⟩)).1.2 2 0 = none) :=
  ⟨by decide,
   c10_remainder_strip_impassable_and_untyped 3 3 ⟨2, 1, 1, 0, 0⟩ none
     ⟨fun _ => 0, 0⟩ 2 0 (generateBody 3 3 ⟨2, 1, 1, 0, 0⟩
       (seedOpt none ⟨fun _ => 0, 0⟩))
     (by rw [generate_layered_map, if_neg (by decide)])
     (by decide)⟩

/-- A successful `is_clear` scan means every footprint tile is in bounds
and currently walkable. -/
theorem footprintClear_all (rows cols : Nat) (grid : CoordGrid)
    (r0 c0 h w : Nat) (hc : footprintClear rows cols grid r0 c0 h w = true) :
    ∀ r c, r0 ≤ r → r < r0 + h → c0 ≤ c → c < c0 + w →
      r < rows ∧ c < cols ∧ grid r c = 1 := by
  intro r c h1 h2 h3 h4
  unfold footprintClear at hc
  rw [List.all_eq_true] at hc
  have hrow := hc (r - r0) (List.mem_range.2 (by omega))
  rw [List.all_eq_true] at hrow
  have hcell := hrow (c - c0) (List.mem_range.2 (by omega))
  simp only [Bool.and_eq_true, decide_eq_true_eq] at hcell
  have e1 : r0 + (r - r0) = r := by omega
  have e2 : c0 + (c - c0) = c := by omega
  rw [e1, e2] at hcell
  exact ⟨hcell.1.1, hcell.1.2, hcell.2⟩

/-- Reading the grid after an acceptance: the entrance re-mark wins, then
the footprint mark, then the previous grid. -/
theorem acceptGrid_read (grid : CoordGrid) (r0 c0 h w ey ex r c : Nat) :
    setG (markFootprint grid r0 c0 h w) ey ex 1 r c =
      (if r = ey ∧ c = ex then 1
       else if r0 ≤ r ∧ r < r0 + h ∧ c0 ≤ c ∧ c < c0 + w then 2
       else grid r c) := by
  simp only [setG, markFootprint]

/-- Accepting a candidate preserves the placement invariant. -/
theorem placeInv_accept (grid0 : CoordGrid) (rows cols num : Nat)
    (grid : CoordGrid) (placed : List Building) (name : String)
    (r0 c0 h w : Nat)
    (hinv : PlaceInv grid0 rows cols num grid placed)
    (hlen : placed.length < num)
    (hfith : r0 + h ≤ rows) (hfitw : c0 + w ≤ cols)
    (hclear : footprintClear rows cols grid r0 c0 h w = true)
    (hent : grid (r0 + h) (c0 + w / 2) = 1) :
    PlaceInv grid0 rows cols num
      (setG (markFootprint grid r0 c0 h w) (r0 + h) (c0 + w / 2) 1)
      (placed ++ [⟨name, c0, r0, w, h, c0 + w / 2, r0 + h⟩]) := by
  obtain ⟨hA, hB, hC, hD, hE, hF, hG⟩ := hinv
  have hclear1 :
      ∀ r c, r0 ≤ r → r < r0 + h → c0 ≤ c → c < c0 + w → grid r c = 1 :=
    fun r c h1 h2 h3 h4 =>
      (footprintClear_all rows cols grid r0 c0 h w hclear r c h1 h2 h3 h4).2.2
  have hread : ∀ r c,
      setG (markFootprint grid r0 c0 h w) (r0 + h) (c0 + w / 2) 1 r c =
        (if r = r0 + h ∧ c = c0 + w / 2 then 1
         else if r0 ≤ r ∧ r < r0 + h ∧ c0 ≤ c ∧ c < c0 + w then 2
         else grid r c) :=
    fun r c => acceptGrid_read grid r0 c0 h w (r0 + h) (c0 + w / 2) r c
  have hold2 : ∀ b' ∈ placed, ∀ r c, inFootprint b' r c →
      setG (markFootprint grid r0 c0 h w) (r0 + h) (c0 + w / 2) 1 r c = 2 := by
    intro b' hb' r c hf
    have h2 : grid r c = 2 := hC b' hb' r c hf
    rw [hread r c]
    have hne1 : ¬(r = r0 + h ∧ c = c0 + w / 2) := by
      intro he
      rw [he.1, he.2] at h2
      omega
    have hne2 : ¬(r0 ≤ r ∧ r < r0 + h ∧ c0 ≤ c ∧ c < c0 + w) := by
      intro he
      have := hclear1 r c he.1 he.2.1 he.2.2.1 he.2.2.2
      omega
    rw [if_neg hne1, if_neg hne2]
    exact h2
  have hnew2 : ∀ r c,
      inFootprint (⟨name, c0, r0, w, h, c0 + w / 2, r0 + h⟩ : Building) r c →
      setG (markFootprint grid r0 c0 h w) (r0 + h) (c0 + w / 2) 1 r c = 2 := by
    intro r c hf
    have hf' : r0 ≤ r ∧ r < r0 + h ∧ c0 ≤ c ∧ c < c0 + w := hf
    obtain ⟨hf1, hf2, hf3, hf4⟩ := hf'
    rw [hread r c]
    have hne1 : ¬(r = r0 + h ∧ c = c0 + w / 2) := by
      intro he
      omega
    rw [if_neg hne1, if_pos ⟨hf1, hf2, hf3, hf4⟩]
  refine ⟨?_, ?_, ?_, ?_, ?_, ?_, ?_⟩
  · rw [List.length_append]
    simp only [List.length_singleton]
    omega
  · intro b' hb'
    rcases List.mem_append.1 hb' with hm | hm
    · exact hB b' hm
    · rw [List.mem_singleton.1 hm]
      exact ⟨hfith, hfitw, rfl, rfl⟩
  · intro b' hb' r c hf
    rcases List.mem_append.1 hb' with hm | hm
    · exact hold2 b' hm r c hf
    · rw [List.mem_singleton.1 hm] at hf
      exact hnew2 r c hf
  · rw [List.pairwise_append]
    refine ⟨hD, List.pairwise_singleton _ _, ?_⟩
    intro a ha b' hb' r c hboth
    rw [List.mem_singleton.1 hb'] at hboth
    obtain ⟨hfa, hfb⟩ := hboth
    have h2 : grid r c = 2 := hC a ha r c hfa
    have hfb' : r0 ≤ r ∧ r < r0 + h ∧ c0 ≤ c ∧ c < c0 + w := hfb
    obtain ⟨g1, g2, g3, g4⟩ := hfb' 
    have h1 : grid r c = 1 := hclear1 r c g1 g2 g3 g4
    omega
  · intro r c h0
    have hold : grid r c = 0 := hE r c h0
    rw [hread r c]
    have hne1 : ¬(r = r0 + h ∧ c = c0 + w / 2) := by
      intro he
      rw [he.1, he.2] at hold
      omega
    have hne2 : ¬(r0 ≤ r ∧ r < r0 + h ∧ c0 ≤ c ∧ c < c0 + w) := by
      intro he
      have := hclear1 r c he.1 he.2.1 he.2.2.1 he.2.2.2
      omega
    rw [if_neg hne1, if_neg hne2]
    exact hold
  · intro b' hb' r c hf
    rcases List.mem_append.1 hb' with hm | hm
    · exact hF b' hm r c hf
    · rw [List.mem_singleton.1 hm] at hf
      have hf' : r0 ≤ r ∧ r < r0 + h ∧ c0 ≤ c ∧ c < c0 + w := hf
      obtain ⟨g1, g2, g3, g4⟩ := hf'
      have h1 : grid r c = 1 := hclear1 r c g1 g2 g3 g4
      intro h0
      have := hE r c h0
      omega
  · intro b' hb'
    rcases List.mem_append.1 hb' with hm | hm
    · rcases hG b' hm with h1 | ⟨b'', hb'', hf⟩
      · by_cases he1 : b'.entrance_y = r0 + h ∧ b'.entrance_x = c0 + w / 2
        · left
          rw [hread _ _, if_pos he1]
        · by_cases he2 : r0 ≤ b'.entrance_y ∧ b'.entrance_y < r0 + h ∧
            c0 ≤ b'.entrance_x ∧ b'.entrance_x < c0 + w
          · right
            exact ⟨⟨name, c0, r0, w, h, c0 + w / 2, r0 + h⟩,
              List.mem_append.2 (Or.inr (List.mem_singleton.2 rfl)),
              he2.1, he2.2.1, he2.2.2.1, he2.2.2.2⟩
          · left
            rw [hread _ _, if_neg he1, if_neg he2]
            exact h1
      · right
        exact ⟨b'', List.mem_append.2 (Or.inl hb''), hf⟩
    · left
      rw [List.mem_singleton.1 hm]
      rw [hread _ _]
      rw [if_pos ⟨rfl, rfl⟩]

/-- The placement loop preserves the invariant from any state. -/
theorem placeLoop_inv (grid0 : CoordGrid) (rows cols num : Nat)
    (bdefs : List (String × BuildingInfo)) :
    ∀ (cands : List (Nat × Nat)) (grid : CoordGrid) (placed : List Building)
      (g : PyRand),
      PlaceInv grid0 rows cols num grid placed →
      PlaceInv grid0 rows cols num
        (placeLoop rows cols num bdefs cands grid placed g).1
        (placeLoop rows cols num bdefs cands grid placed g).2.1 := by
  intro cands
  induction cands with
  | nil => intro grid placed g hinv; exact hinv
  | cons rc rest ih =>
    obtain ⟨r0, c0⟩ := rc
    intro grid placed g hinv
    simp only [placeLoop]
    by_cases h1 : num ≤ placed.length
    · rw [if_pos h1]; exact hinv
    · rw [if_neg h1]
      by_cases h2 : rows < r0 + (pyChoice bdefs ("", ⟨0, 0⟩) g).1.2.height_tiles ∨
          cols < c0 + (pyChoice bdefs ("", ⟨0, 0⟩) g).1.2.width_tiles
      · rw [if_pos h2]
        exact ih grid placed _ hinv
      · rw [if_neg h2]
        by_cases h3 :
            (footprintClear rows cols grid r0 c0
              (pyChoice bdefs ("", ⟨0, 0⟩) g).1.2.height_tiles
              (pyChoice bdefs ("", ⟨0, 0⟩) g).1.2.width_tiles &&
             (decide (r0 + (pyChoice bdefs ("", ⟨0, 0⟩) g).1.2.height_tiles < rows) &&
              decide (c0 + (pyChoice bdefs ("", ⟨0, 0⟩) g).1.2.width_tiles / 2 < cols) &&
              decide (grid (r0 + (pyChoice bdefs ("", ⟨0, 0⟩) g).1.2.height_tiles)
                (c0 + (pyChoice bdefs ("", ⟨0, 0⟩) g).1.2.width_tiles / 2) = 1))) = true
        · rw [if_pos h3]
          simp only [Bool.and_eq_true, decide_eq_true_eq] at h3
          apply ih
          exact placeInv_accept grid0 rows cols num grid placed
            (pyChoice bdefs ("", ⟨0, 0⟩) g).1.1 r0 c0
            (pyChoice bdefs ("", ⟨0, 0⟩) g).1.2.height_tiles
            (pyChoice bdefs ("", ⟨0, 0⟩) g).1.2.width_tiles
            hinv (by omega) (by omega) (by omega) h3.1 h3.2.2
        · rw [if_neg h3]
          exact ih grid placed _ hinv

/-- The invariant holds of the result of `place_buildings_on_map`. -/
theorem place_buildings_inv (rows cols : Nat) (grid0 : CoordGrid) (num : Nat)
    (bdefs : List (String × BuildingInfo)) (g : PyRand) :
    PlaceInv grid0 rows cols num
      (place_buildings_on_map rows cols grid0 num bdefs g).1
      (place_buildings_on_map rows cols grid0 num bdefs g).2.1 := by
  unfold place_buildings_on_map
  apply placeLoop_inv
  refine ⟨Nat.zero_le num, ?_, ?_, List.Pairwise.nil, fun r c hz => hz, ?_, ?_⟩
  · intro b hb; exact absurd hb (List.not_mem_nil b)
  · intro b hb; exact absurd hb (List.not_mem_nil b)
  · intro b hb; exact absurd hb (List.not_mem_nil b)
  · intro b hb; exact absurd hb (List.not_mem_nil b)

/-- C4: after `place_buildings_on_map` returns, every record's footprint
(width by height, anchored at its origin) lies entirely inside the grid
and every footprint tile of the mutated grid equals 2; the entrance tile
is at column = origin column + width / 2 and row = origin row + height;
distinct records' footprints share no tile; no tile whose input value was
0 (natural impassable terrain) lies under any footprint; and the list's
length is at most the requested count.  The hypothesis `bdefs ≠ []`
excludes the empty definition table, on which CPython's `random.choice`
would raise instead of returning. -/
theorem c4_placement_postconditions (rows cols : Nat) (grid0 : CoordGrid)
    (num : Nat) (bdefs : List (String × BuildingInfo)) (g : PyRand)
    (_hbdefs : bdefs ≠ []) :
    (place_buildings_on_map rows cols grid0 num bdefs g).2.1.length ≤ num ∧
    (∀ b ∈ (place_buildings_on_map rows cols grid0 num bdefs g).2.1,
      b.grid_y + b.height_tiles ≤ rows ∧ b.grid_x + b.width_tiles ≤ cols ∧
      b.entrance_x = b.grid_x + b.width_tiles / 2 ∧
      b.entrance_y = b.grid_y + b.height_tiles ∧
      (∀ r c, inFootprint b r c →
        (place_buildings_on_map rows cols grid0 num bdefs g).1 r c = 2) ∧
      (∀ r c, inFootprint b r c → grid0 r c ≠ 0)) ∧
    List.Pairwise FootprintsDisjoint
      (place_buildings_on_map rows cols grid0 num bdefs g).2.1 := by
  obtain ⟨hA, hB, hC, _hD, _hE, hF, _hG⟩ :=
    place_buildings_inv rows cols grid0 num bdefs g
  refine ⟨hA, ?_, _hD⟩
  intro b hb
  obtain ⟨b1, b2, b3, b4⟩ := hB b hb
  exact ⟨b1, b2, b3, b4, hC b hb, hF b hb⟩

/-- C4, witness: a 3 by 1 all-walkable column with a single 1 by 1
building type, requested count 2; both placements succeed and the first
building's footprint tile carries value 2. -/
theorem c4_placement_postconditions_witness :
    ([("hut", (⟨1, 1⟩ : BuildingInfo))] ≠ []) ∧
    (place_buildings_on_map 3 1 (fun _ _ => 1) 2 [("hut", ⟨1, 1⟩)]
      ⟨fun n => if n = 0 then 2 else if n = 1 then 1 else 0, 0⟩).2.1.length ≤ 2 ∧
    ((⟨"hut", 0, 0, 1, 1, 0, 1⟩ : Building) ∈
      (place_buildings_on_map 3 1 (fun _ _ => 1) 2 [("hut", ⟨1, 1⟩)]
        ⟨fun n => if n = 0 then 2 else if n = 1 then 1 else 0, 0⟩).2.1) ∧
    (place_buildings_on_map 3 1 (fun _ _ => 1) 2 [("hut", ⟨1, 1⟩)]
      ⟨fun n => if n = 0 then 2 else if n = 1 then 1 else 0, 0⟩).1 0 0 = 2 :=
  ⟨by decide,
   (c4_placement_postconditions 3 1 (fun _ _ => 1) 2 [("hut", ⟨1, 1⟩)]
     ⟨fun n => if n = 0 then 2 else if n = 1 then 1 else 0, 0⟩ (by decide)).1,
   by decide,
   ((c4_placement_postconditions 3 1 (fun _ _ => 1) 2 [("hut", ⟨1, 1⟩)]
     ⟨fun n => if n = 0 then 2 else if n = 1 then 1 else 0, 0⟩ (by decide)).2.1
     ⟨"hut", 0, 0, 1, 1, 0, 1⟩ (by decide)).2.2.2.2.1 0 0 (by decide)⟩

/-- C2, counterexample.  A 3 by 1 all-walkable column, one 1 by 1 building
type, count 2, a pseudo-random stream under which the shuffle is the
identity: the building accepted first (origin (0, 0), entrance at row 1,
column 0) has entrance walkability 2 after the call returns, because the
second accepted building's footprint is exactly that entrance tile (it was
walkable, so the footprint scan accepted it) and marked it impassable. -/
theorem c2_counterexample :
    ((⟨"hut", 0, 0, 1, 1, 0, 1⟩ : Building) ∈
      (place_buildings_on_map 3 1 (fun _ _ => 1) 2 [("hut", ⟨1, 1⟩)]
        ⟨fun n => if n = 0 then 2 else if n = 1 then 1 else 0, 0⟩).2.1) ∧
    ((⟨"hut", 0, 1, 1, 1, 0, 2⟩ : Building) ∈
      (place_buildings_on_map 3 1 (fun _ _ => 1) 2 [("hut", ⟨1, 1⟩)]
        ⟨fun n => if n = 0 then 2 else if n = 1 then 1 else 0, 0⟩).2.1) ∧
    inFootprint (⟨"hut", 0, 1, 1, 1, 0, 2⟩ : Building)
      (⟨"hut", 0, 0, 1, 1, 0, 1⟩ : Building).entrance_y
      (⟨"hut", 0, 0, 1, 1, 0, 1⟩ : Building).entrance_x ∧
    (place_buildings_on_map 3 1 (fun _ _ => 1) 2 [("hut", ⟨1, 1⟩)]
      ⟨fun n => if n = 0 then 2 else if n = 1 then 1 else 0, 0⟩).1
      (⟨"hut", 0, 0, 1, 1, 0, 1⟩ : Building).entrance_y
      (⟨"hut", 0, 0, 1, 1, 0, 1⟩ : Building).entrance_x = 2 :=
  ⟨by decide, by decide, by decide, by decide⟩

/-- C2 (amended): on acceptance the entrance tile is explicitly re-marked
1 (the re-mark is the last write of the acceptance step, so it wins over
the same acceptance's footprint marking); and when `place_buildings_on_map`
returns, every accepted building's entrance tile still has walkability 1
unless the footprint of another accepted building covers it — a later
acceptance may legally cover an earlier entrance (the tile is walkable,
so the later footprint scan accepts it) and re-mark it 2. -/
theorem c2_entrance_walkable_unless_covered (rows cols : Nat)
    (grid0 : CoordGrid) (num : Nat) (bdefs : List (String × BuildingInfo))
    (g : PyRand) (_hbdefs : bdefs ≠ []) (b : Building)
    (hb : b ∈ (place_buildings_on_map rows cols grid0 num bdefs g).2.1) :
    (∀ (grid : CoordGrid) (r0 c0 h w : Nat),
      setG (markFootprint grid r0 c0 h w) (r0 + h) (c0 + w / 2) 1
        (r0 + h) (c0 + w / 2) = 1) ∧
    ((place_buildings_on_map rows cols grid0 num bdefs g).1
        b.entrance_y b.entrance_x = 1 ∨
      ∃ b' ∈ (place_buildings_on_map rows cols grid0 num bdefs g).2.1,
        inFootprint b' b.entrance_y b.entrance_x) := by
  constructor
  · intro grid r0 c0 h w
    rw [acceptGrid_read grid r0 c0 h w (r0 + h) (c0 + w / 2) (r0 + h) (c0 + w / 2),
      if_pos ⟨rfl, rfl⟩]
  · obtain ⟨_, _, _, _, _, _, hG⟩ :=
      place_buildings_inv rows cols grid0 num bdefs g
    exact hG b hb

/-- C2, witness for the amended theorem: the second accepted building of
the counterexample scenario — its entrance is still walkable at return. -/
theorem c2_entrance_walkable_unless_covered_witness :
    ([("hut", (⟨1, 1⟩ : BuildingInfo))] ≠ []) ∧
    ((⟨"hut", 0, 1, 1, 1, 0, 2⟩ : Building) ∈
      (place_buildings_on_map 3 1 (fun _ _ => 1) 2 [("hut", ⟨1, 1⟩)]
        ⟨fun n => if n = 0 then 2 else if n = 1 then 1 else 0, 0⟩).2.1) ∧
    ((place_buildings_on_map 3 1 (fun _ _ => 1) 2 [("hut", ⟨1, 1⟩)]
        ⟨fun n => if n = 0 then 2 else if n = 1 then 1 else 0, 0⟩).1
        (⟨"hut", 0, 1, 1, 1, 0, 2⟩ : Building).entrance_y
        (⟨"hut", 0, 1, 1, 1, 0, 2⟩ : Building).entrance_x = 1 ∨
      ∃ b' ∈ (place_buildings_on_map 3 1 (fun _ _ => 1) 2 [("hut", ⟨1, 1⟩)]
          ⟨fun n => if n = 0 then 2 else if n = 1 then 1 else 0, 0⟩).2.1,
        inFootprint b' (⟨"hut", 0, 1, 1, 1, 0, 2⟩ : Building).entrance_y
          (⟨"hut", 0, 1, 1, 1, 0, 2⟩ : Building).entrance_x) :=
  ⟨by decide, by decide,
   (c2_entrance_walkable_unless_covered 3 1 (fun _ _ => 1) 2
      [("hut", ⟨1, 1⟩)]
      ⟨fun n => if n = 0 then 2 else if n = 1 then 1 else 0, 0⟩ (by decide)
      ⟨"hut", 0, 1, 1, 1, 0, 2⟩ (by decide)).2⟩

end PokeGen
